import Mathlib

set_option maxHeartbeats 1000000

/- Shallow embedding of the NES emulator core of this repository:
   src/src/apu.rs (legacy scanline-accurate APU), src/src/apu/pulse.rs,
   src/src/apu/length_counter.rs, src/src/apu/dmc.rs, src/src/ppu.rs and
   src/src/nes.rs.  Machine integers are modelled as Nat with explicit
   reductions mod 2^w wherever the source wraps; u8/u16 fields hold values
   within their width by construction of the operations.  Debug-only fields
   of the source (ring buffers for the visualiser, channel name strings,
   recent_reads/recent_writes vectors) are omitted: no modelled operation
   reads them. -/

/- ===================== legacy APU: src/src/apu.rs ===================== -/

/-- PulseChannelState of src/src/apu.rs (the legacy module; the repository
also ships a second pulse module, modelled below as PulseChannelState). -/
structure LegacyPulseChannelState where
  enabled : Bool
  volume : Nat
  decay : Nat
  envelope_enabled : Bool
  envelope_loop : Bool
  length_enabled : Bool
  envelope_start : Bool
  sweep_enabled : Bool
  sweep_period : Nat
  sweep_divider : Nat
  sweep_negate : Bool
  sweep_shift : Nat
  sweep_reload : Bool
  sweep_ones_compliment : Bool
  duty : Nat
  sequence_counter : Nat
  period_initial : Nat
  period_current : Nat
  length : Nat
deriving DecidableEq

/-- LegacyPulseChannelState::new. -/
def LegacyPulseChannelState.new (sweep_ones_compliment : Bool) : LegacyPulseChannelState :=
  { enabled := false
    volume := 0
    decay := 0
    envelope_enabled := false
    envelope_loop := false
    length_enabled := false
    envelope_start := false
    sweep_enabled := false
    sweep_period := 0
    sweep_divider := 0
    sweep_negate := false
    sweep_shift := 0
    sweep_reload := false
    sweep_ones_compliment := sweep_ones_compliment
    duty := 1
    sequence_counter := 0
    period_initial := 0
    period_current := 0
    length := 0 }

/-- PulseChannelState::clock of src/src/apu.rs. -/
def LegacyPulseChannelState.clock (p : LegacyPulseChannelState) : LegacyPulseChannelState :=
  if p.period_current = 0 then
    let p := { p with period_current := p.period_initial }
    if p.sequence_counter = 0 then { p with sequence_counter := 7 }
    else { p with sequence_counter := p.sequence_counter - 1 }
  else { p with period_current := p.period_current - 1 }

/-- PulseChannelState::output of src/src/apu.rs (no sweep-mute logic here,
unlike the pulse.rs version). -/
def LegacyPulseChannelState.output (p : LegacyPulseChannelState) : Nat :=
  ((p.duty >>> p.sequence_counter) &&& 1) * p.volume

/-- PulseChannelState::target_period of src/src/apu.rs.  The source computes
`period_initial - change_amount - 1` with plain u16 subtraction; the release
build wraps (modelled by the mod-2^16 form below), while the debug build
panics on underflow: see the checked model legacy_target_period_checked. -/
def LegacyPulseChannelState.target_period (p : LegacyPulseChannelState) : Nat :=
  let change_amount := p.period_initial >>> p.sweep_shift
  if p.sweep_negate then
    if p.sweep_ones_compliment then
      (p.period_initial - change_amount + 65535) % 65536
    else
      p.period_initial - change_amount
  else
    (p.period_initial + change_amount) % 65536

/-- PulseChannelState::update_sweep of src/src/apu.rs. -/
def LegacyPulseChannelState.update_sweep (p : LegacyPulseChannelState) : LegacyPulseChannelState :=
  let target_period := p.target_period
  let p :=
    if p.sweep_divider = 0 ∧ p.sweep_enabled ∧ p.sweep_shift ≠ 0
        ∧ target_period ≤ 0x7FF ∧ 8 ≤ p.period_initial then
      { p with period_initial := target_period }
    else p
  if p.sweep_divider = 0 ∨ p.sweep_reload then
    { p with sweep_divider := p.sweep_period, sweep_reload := false }
  else
    { p with sweep_divider := p.sweep_divider - 1 }

/-- ApuState of src/src/apu.rs.  The 4096-entry sample_buffer array is
omitted: it is only touched by the sample-mixing path of run_to_cycle, which
no modelled operation uses. -/
structure ApuState where
  current_cycle : Nat
  frame_sequencer_mode : Nat
  frame_sequencer : Nat
  frame_reset_delay : Nat
  frame_interrupt : Bool
  disable_interrupt : Bool
  pulse_1 : LegacyPulseChannelState
  pulse_2 : LegacyPulseChannelState
  sample_rate : Nat
  cpu_clock_rate : Nat
  buffer_index : Nat
  generated_samples : Nat
  next_sample_at : Nat
deriving DecidableEq

/-- ApuState::new. -/
def ApuState.new : ApuState :=
  { current_cycle := 0
    frame_sequencer_mode := 0
    frame_sequencer := 0
    frame_reset_delay := 0
    frame_interrupt := false
    disable_interrupt := false
    pulse_1 := LegacyPulseChannelState.new true
    pulse_2 := LegacyPulseChannelState.new false
    sample_rate := 44100
    cpu_clock_rate := 1786860
    buffer_index := 0
    generated_samples := 0
    next_sample_at := 0 }

/-- The duty_table local of ApuState::write_register. -/
def duty_table : List Nat := [0b10000000, 0b11000000, 0b11110000, 0b00111111]

/-- ApuState::write_register of src/src/apu.rs.  Note that the 0x4003/0x4007
case stores the raw 5-bit length index into pulse length, and that the
0x4017 case always schedules a 4-cycle reset delay. -/
def ApuState.write_register (s : ApuState) (address data : Nat) : ApuState :=
  if address = 0x4000 then
    let duty_index := (data &&& 0b11000000) >>> 6
    let length_disable := (data &&& 0b00100000) ≠ 0
    let constant_volume := (data &&& 0b00010000) ≠ 0
    let p := { s.pulse_1 with
                duty := duty_table.getD duty_index 0
                length_enabled := decide ¬length_disable
                envelope_enabled := decide ¬constant_volume }
    let p := if constant_volume then { p with volume := data &&& 0b00001111 } else p
    { s with pulse_1 := p }
  else if address = 0x4001 then
    { s with pulse_1 := { s.pulse_1 with
        sweep_enabled := decide ((data &&& 0b10000000) ≠ 0)
        sweep_period := (data &&& 0b01110000) >>> 4
        sweep_negate := decide ((data &&& 0b00001000) ≠ 0)
        sweep_shift := data &&& 0b00000111
        sweep_reload := true } }
  else if address = 0x4002 then
    let period_low := data
    { s with pulse_1 := { s.pulse_1 with
        period_initial := (s.pulse_1.period_initial &&& 0xFF00) ||| period_low } }
  else if address = 0x4003 then
    let period_high := (data &&& 0b00000111) <<< 8
    let length := (data &&& 0b11111000) >>> 3
    { s with pulse_1 := { s.pulse_1 with
        period_initial := (s.pulse_1.period_initial &&& 0x00FF) ||| period_high
        length := length
        sequence_counter := 0
        envelope_start := true } }
  else if address = 0x4004 then
    let duty_index := (data &&& 0b11000000) >>> 6
    let length_disable := (data &&& 0b00100000) ≠ 0
    let constant_volume := (data &&& 0b00010000) ≠ 0
    let p := { s.pulse_2 with
                duty := duty_table.getD duty_index 0
                length_enabled := decide ¬length_disable
                envelope_enabled := decide ¬constant_volume }
    let p := if constant_volume then { p with volume := data &&& 0b00001111 } else p
    { s with pulse_2 := p }
  else if address = 0x4005 then
    { s with pulse_2 := { s.pulse_2 with
        sweep_enabled := decide ((data &&& 0b10000000) ≠ 0)
        sweep_period := (data &&& 0b01110000) >>> 4
        sweep_negate := decide ((data &&& 0b00001000) ≠ 0)
        sweep_shift := data &&& 0b00000111
        sweep_reload := true } }
  else if address = 0x4006 then
    let period_low := data
    { s with pulse_2 := { s.pulse_2 with
        period_initial := (s.pulse_2.period_initial &&& 0xFF00) ||| period_low } }
  else if address = 0x4007 then
    let period_high := (data &&& 0b00000111) <<< 8
    let length := (data &&& 0b11111000) >>> 3
    { s with pulse_2 := { s.pulse_2 with
        period_initial := (s.pulse_2.period_initial &&& 0x00FF) ||| period_high
        length := length
        sequence_counter := 0
        envelope_start := true } }
  else if address = 0x4017 then
    { s with
        frame_sequencer_mode := (data &&& 0b10000000) >>> 7
        disable_interrupt := decide ((data &&& 0b01000000) ≠ 0)
        frame_reset_delay := 4 }
  else s

/-- ApuState::clock_quarter_frame (an empty body in the source). -/
def ApuState.clock_quarter_frame (s : ApuState) : ApuState := s

/-- ApuState::clock_half_frame: sweep both pulse channels. -/
def ApuState.clock_half_frame (s : ApuState) : ApuState :=
  { s with pulse_1 := s.pulse_1.update_sweep, pulse_2 := s.pulse_2.update_sweep }

/-- ApuState::clock_frame_sequencer of src/src/apu.rs.  The counter is a u16
(increment modelled mod 2^16).  Note that in 4-step mode the three
frame_interrupt assignments are unconditional: disable_interrupt is never
consulted anywhere in this function (or anywhere else in the module). -/
def ApuState.clock_frame_sequencer (s : ApuState) : ApuState :=
  let s : ApuState := { s with frame_sequencer := (s.frame_sequencer + 1) % 65536 }
  let s : ApuState :=
    if 0 < s.frame_reset_delay then
      let s : ApuState := { s with frame_reset_delay := s.frame_reset_delay - 1 }
      if s.frame_reset_delay = 0 then
        let s : ApuState := { s with frame_sequencer := 0 }
        if s.frame_sequencer_mode = 1 then s.clock_quarter_frame.clock_half_frame else s
      else s
    else s
  if s.frame_sequencer_mode = 0 then
    if s.frame_sequencer = 7457 then s.clock_quarter_frame
    else if s.frame_sequencer = 14913 then s.clock_quarter_frame.clock_half_frame
    else if s.frame_sequencer = 22371 then s.clock_quarter_frame
    else if s.frame_sequencer = 29828 then { s with frame_interrupt := true }
    else if s.frame_sequencer = 29829 then
      ({ s with frame_interrupt := true }).clock_quarter_frame.clock_half_frame
    else if s.frame_sequencer = 29830 then { s with frame_interrupt := true, frame_sequencer := 0 }
    else s
  else
    if s.frame_sequencer = 7457 then s.clock_quarter_frame
    else if s.frame_sequencer = 14913 then s.clock_quarter_frame.clock_half_frame
    else if s.frame_sequencer = 22371 then s.clock_quarter_frame
    else if s.frame_sequencer = 37281 then s.clock_quarter_frame.clock_half_frame
    else if s.frame_sequencer = 37282 then { s with frame_sequencer := 0 }
    else s

/- ============ save/load helpers: src/src/save_load.rs (not under src/) ============ -/

/-- Rust bool stored as a byte (b as u8). -/
def b2u (b : Bool) : Nat := if b then 1 else 0

/-- Modelled from the spec: save_u8 of src/src/save_load.rs is not under
src/; spec section 6 specifies save-state serialization as a flat byte
stream of every field, and the load functions of length_counter.rs, pulse.rs
and nes.rs read the stream back from the end, so save_u8 appends one byte. -/
def save_u8 (buff : List Nat) (v : Nat) : List Nat := buff ++ [v]

/-- Modelled from the spec: save_bool of src/src/save_load.rs is not under
src/; a bool is stored as one byte. -/
def save_bool (buff : List Nat) (b : Bool) : List Nat := buff ++ [b2u b]

/-- Modelled from the spec: load_u8 of src/src/save_load.rs is not under
src/; it removes and returns the last byte of the stream (Vec::pop). -/
def pop_u8 (buff : List Nat) : List Nat × Nat := (buff.dropLast, (buff.getLast?).getD 0)

/-- Modelled from the spec: load_bool of src/src/save_load.rs is not under
src/; it pops the last byte and tests it against zero. -/
def pop_bool (buff : List Nat) : List Nat × Bool :=
  ((pop_u8 buff).1, (pop_u8 buff).2 != 0)

/-- u16::to_le_bytes. -/
def le2 (v : Nat) : List Nat := [v % 256, v / 256 % 256]

/-- u32::to_le_bytes. -/
def le4 (v : Nat) : List Nat :=
  [v % 256, v / 256 % 256, v / 65536 % 256, v / 16777216 % 256]

/-- u64::to_le_bytes. -/
def le8 (v : Nat) : List Nat :=
  [v % 256, v / 256 % 256, v / 65536 % 256, v / 16777216 % 256,
   v / 4294967296 % 256, v / 1099511627776 % 256,
   v / 281474976710656 % 256, v / 72057594037927936 % 256]

/-- uN::from_le_bytes. -/
def from_le_bytes (l : List Nat) : Nat := l.foldr (fun b acc => acc * 256 + b) 0

/-- Vec::split_off(len - n) followed by from_le_bytes on the removed tail,
as used by the load_state functions. -/
def split_off_le (n : Nat) (buff : List Nat) : List Nat × Nat :=
  (buff.take (buff.length - n), from_le_bytes (buff.drop (buff.length - n)))

/-- Vec::split_off(len - n) for an opaque n-byte component record. -/
def split_off_blob (n : Nat) (buff : List Nat) : List Nat × List Nat :=
  (buff.take (buff.length - n), buff.drop (buff.length - n))

/- ============ volume envelope: src/src/apu/volume_envelope.rs (not under src/) ============ -/

/-- Modelled from the spec: src/src/apu/volume_envelope.rs is not under src/.
Spec section 4.4: the envelope holds a start flag, a decay level, a divider,
the configured volume / envelope period, a loop flag and the
constant-volume selector; enabled means the constant-volume bit is clear
(apu.rs sets envelope_enabled = not constant_volume). -/
structure VolumeEnvelopeState where
  looping : Bool
  enabled : Bool
  start_flag : Bool
  volume : Nat
  decay : Nat
  divider : Nat
deriving DecidableEq

/-- Modelled from the spec: current volume is the decay level when the
envelope is enabled, else the configured constant volume (spec 4.4). -/
def VolumeEnvelopeState.current_volume (e : VolumeEnvelopeState) : Nat :=
  if e.enabled then e.decay else e.volume

/-- Modelled from the spec: flat byte-stream serialization of every field
(spec section 6). -/
def VolumeEnvelopeState.save_state (e : VolumeEnvelopeState) (data : List Nat) : List Nat :=
  let data := save_bool data e.looping
  let data := save_bool data e.enabled
  let data := save_bool data e.start_flag
  let data := save_u8 data e.volume
  let data := save_u8 data e.decay
  save_u8 data e.divider

/-- Modelled from the spec: reads the fields back in exact reverse order. -/
def VolumeEnvelopeState.load_state (e : VolumeEnvelopeState) (data : List Nat) :
    VolumeEnvelopeState × List Nat :=
  let (data, divider) := pop_u8 data
  let (data, decay) := pop_u8 data
  let (data, volume) := pop_u8 data
  let (data, start_flag) := pop_bool data
  let (data, enabled) := pop_bool data
  let (data, looping) := pop_bool data
  ({ e with looping := looping, enabled := enabled, start_flag := start_flag,
            volume := volume, decay := decay, divider := divider }, data)

/- ============ length counter: src/src/apu/length_counter.rs ============ -/

/-- LengthCounterState of src/src/apu/length_counter.rs. -/
structure LengthCounterState where
  length : Nat
  halt_flag : Bool
  channel_enabled : Bool
deriving DecidableEq

/-- LengthCounterState::new. -/
def LengthCounterState.new : LengthCounterState :=
  { length := 0, halt_flag := false, channel_enabled := false }

/-- LengthCounterState::clock. -/
def LengthCounterState.clock (lc : LengthCounterState) : LengthCounterState :=
  if lc.channel_enabled then
    if 0 < lc.length ∧ ¬lc.halt_flag then { lc with length := lc.length - 1 } else lc
  else { lc with length := 0 }

/-- The length table of LengthCounterState::set_length. -/
def length_table : List Nat :=
  [10, 254, 20, 2, 40, 4, 80, 6, 160, 8, 60, 10, 14, 12, 26, 14,
   12, 16, 24, 18, 48, 20, 96, 22, 192, 24, 72, 26, 16, 28, 32, 30]

/-- LengthCounterState::set_length: the table value when the channel is
enabled, zero otherwise. -/
def LengthCounterState.set_length (lc : LengthCounterState) (index : Nat) : LengthCounterState :=
  if lc.channel_enabled then { lc with length := length_table.getD index 0 }
  else { lc with length := 0 }

/-- LengthCounterState::save_state (save_u8/save_bool are spec-modelled). -/
def LengthCounterState.save_state (lc : LengthCounterState) (buff : List Nat) : List Nat :=
  let buff := save_u8 buff lc.length
  let buff := save_bool buff lc.halt_flag
  save_bool buff lc.channel_enabled

/-- LengthCounterState::load_state: pops the fields in reverse order. -/
def LengthCounterState.load_state (lc : LengthCounterState) (buff : List Nat) :
    LengthCounterState × List Nat :=
  let (buff, channel_enabled) := pop_bool buff
  let (buff, halt_flag) := pop_bool buff
  let (buff, length) := pop_u8 buff
  ({ lc with channel_enabled := channel_enabled, halt_flag := halt_flag, length := length }, buff)

/- ============ pulse channel: src/src/apu/pulse.rs ============ -/

/-- PulseChannelState of src/src/apu/pulse.rs.  The debug-only fields
(name, chip, debug_disable, output_buffer, edge_buffer, debug_filter) are
omitted: they feed the visualiser only and are never serialized; last_edge
is kept because clock() writes it. -/
structure PulseChannelState where
  last_edge : Bool
  envelope : VolumeEnvelopeState
  length_counter : LengthCounterState
  sweep_enabled : Bool
  sweep_period : Nat
  sweep_divider : Nat
  sweep_negate : Bool
  sweep_shift : Nat
  sweep_reload : Bool
  sweep_ones_compliment : Bool
  duty : Nat
  sequence_counter : Nat
  period_initial : Nat
  period_current : Nat
  cpu_clock_rate : Nat
deriving DecidableEq

/-- PulseChannelState::clock of src/src/apu/pulse.rs. -/
def PulseChannelState.clock (p : PulseChannelState) : PulseChannelState :=
  if p.period_current = 0 then
    let p := { p with period_current := p.period_initial }
    if p.sequence_counter = 0 then { p with sequence_counter := 7, last_edge := true }
    else { p with sequence_counter := p.sequence_counter - 1 }
  else { p with period_current := p.period_current - 1 }

/-- PulseChannelState::target_period of src/src/apu/pulse.rs, including the
ones-complement special case for shift==0 or period==0. -/
def PulseChannelState.target_period (p : PulseChannelState) : Nat :=
  let change_amount := p.period_initial >>> p.sweep_shift
  if p.sweep_negate then
    if p.sweep_ones_compliment then
      if p.sweep_shift = 0 ∨ p.period_initial = 0 then 0
      else p.period_initial - change_amount - 1
    else
      p.period_initial - change_amount
  else
    (p.period_initial + change_amount) % 65536

/-- PulseChannelState::output of src/src/apu/pulse.rs: silent when the
length counter is zero or the sweep unit mutes the channel. -/
def PulseChannelState.output (p : PulseChannelState) : Nat :=
  if 0 < p.length_counter.length then
    let target_period := p.target_period
    if 0x7FF < target_period ∨ p.period_initial < 8 then 0
    else ((p.duty >>> p.sequence_counter) &&& 1) * p.envelope.current_volume
  else 0

/-- PulseChannelState::update_sweep of src/src/apu/pulse.rs. -/
def PulseChannelState.update_sweep (p : PulseChannelState) : PulseChannelState :=
  let target_period := p.target_period
  let p :=
    if p.sweep_divider = 0 ∧ p.sweep_enabled ∧ p.sweep_shift ≠ 0
        ∧ target_period ≤ 0x7FF ∧ 8 ≤ p.period_initial then
      { p with period_initial := target_period }
    else p
  if p.sweep_divider = 0 ∨ p.sweep_reload then
    { p with sweep_divider := p.sweep_period, sweep_reload := false }
  else
    { p with sweep_divider := p.sweep_divider - 1 }

/-- PulseChannelState::save_state of src/src/apu/pulse.rs (field order of
the source, one push per byte, multi-byte fields in little-endian order). -/
def PulseChannelState.save_state (p : PulseChannelState) (data : List Nat) : List Nat :=
  let data := p.envelope.save_state data
  let data := p.length_counter.save_state data
  let data := data ++ [b2u p.sweep_enabled]
  let data := data ++ [p.sweep_period]
  let data := data ++ [p.sweep_divider]
  let data := data ++ [b2u p.sweep_negate]
  let data := data ++ [p.sweep_shift]
  let data := data ++ [b2u p.sweep_reload]
  let data := data ++ [b2u p.sweep_ones_compliment]
  let data := data ++ [p.duty]
  let data := data ++ [p.sequence_counter]
  let data := data ++ le2 p.period_initial
  let data := data ++ le2 p.period_current
  data ++ le8 p.cpu_clock_rate

/-- PulseChannelState::load_state of src/src/apu/pulse.rs: reads every
saved field back in exact reverse order, consuming the stream from its
end. -/
def PulseChannelState.load_state (p : PulseChannelState) (data : List Nat) :
    PulseChannelState × List Nat :=
  let (data, cpu_clock_rate) := split_off_le 8 data
  let (data, period_current) := split_off_le 2 data
  let (data, period_initial) := split_off_le 2 data
  let (data, sequence_counter) := pop_u8 data
  let (data, duty) := pop_u8 data
  let (data, sweep_ones_compliment) := pop_bool data
  let (data, sweep_reload) := pop_bool data
  let (data, sweep_shift) := pop_u8 data
  let (data, sweep_negate) := pop_bool data
  let (data, sweep_divider) := pop_u8 data
  let (data, sweep_period) := pop_u8 data
  let (data, sweep_enabled) := pop_bool data
  let (length_counter, data) := p.length_counter.load_state data
  let (envelope, data) := p.envelope.load_state data
  ({ p with envelope := envelope, length_counter := length_counter,
            sweep_enabled := sweep_enabled, sweep_period := sweep_period,
            sweep_divider := sweep_divider, sweep_negate := sweep_negate,
            sweep_shift := sweep_shift, sweep_reload := sweep_reload,
            sweep_ones_compliment := sweep_ones_compliment, duty := duty,
            sequence_counter := sequence_counter, period_initial := period_initial,
            period_current := period_current, cpu_clock_rate := cpu_clock_rate }, data)

/- ============ DMC channel: src/src/apu/dmc.rs ============ -/

/-- A mapper read line: read_cpu / read_ppu return None for open bus. -/
def Mapper : Type := Nat → Option Nat

/-- DmcState of src/src/apu/dmc.rs (debug-only name, chip, debug_disable
and output_buffer fields omitted). -/
structure DmcState where
  looping : Bool
  period_initial : Nat
  period_current : Nat
  output_level : Nat
  starting_address : Nat
  sample_length : Nat
  current_address : Nat
  sample_buffer : Nat
  shift_register : Nat
  sample_buffer_empty : Bool
  bits_remaining : Nat
  bytes_remaining : Nat
  silence_flag : Bool
  interrupt_enabled : Bool
  interrupt_flag : Bool
  rdy_line : Bool
  rdy_delay : Nat
deriving DecidableEq

/-- DmcState::new. -/
def DmcState.new : DmcState :=
  { looping := false
    period_initial := 428
    period_current := 0
    output_level := 0
    starting_address := 0
    sample_length := 0
    current_address := 0
    sample_buffer := 0
    shift_register := 0
    sample_buffer_empty := true
    bits_remaining := 8
    bytes_remaining := 0
    silence_flag := false
    interrupt_enabled := true
    interrupt_flag := false
    rdy_line := false
    rdy_delay := 0 }

/-- DmcState::read_next_sample of src/src/apu/dmc.rs: fetch one sample
byte through the mapper from 0x8000 | (current_address & 0x7FFF), advance
the (u16, wrapping) address, consume one remaining byte, and on reaching
zero either reload the start address and length (looping) or raise the DMC
IRQ (when enabled). -/
def DmcState.read_next_sample (d : DmcState) (mapper : Mapper) : DmcState :=
  let d : DmcState :=
    match mapper (0x8000 ||| (d.current_address &&& 0x7FFF)) with
    | some byte => { d with sample_buffer := byte }
    | none => { d with sample_buffer := 0 }
  let d : DmcState := { d with current_address := (d.current_address + 1) % 65536 }
  let d : DmcState := { d with bytes_remaining := d.bytes_remaining - 1 }
  let d : DmcState :=
    if d.bytes_remaining = 0 then
      if d.looping then
        { d with current_address := d.starting_address, bytes_remaining := d.sample_length }
      else
        if d.interrupt_enabled then { d with interrupt_flag := true } else d
    else d
  { d with sample_buffer_empty := false, rdy_line := false, rdy_delay := 0 }

/-- DmcState::begin_output_cycle. -/
def DmcState.begin_output_cycle (d : DmcState) : DmcState :=
  let d : DmcState := { d with bits_remaining := 8 }
  if d.sample_buffer_empty then { d with silence_flag := true }
  else { d with silence_flag := false, shift_register := d.sample_buffer,
                sample_buffer_empty := true }

/-- DmcState::update_output_unit. -/
def DmcState.update_output_unit (d : DmcState) : DmcState :=
  let d : DmcState :=
    if ¬d.silence_flag then
      let target_output :=
        if (d.shift_register &&& 1) = 0 then
          if 2 ≤ d.output_level then d.output_level - 2 else d.output_level
        else
          if d.output_level ≤ 125 then d.output_level + 2 else d.output_level
      { d with output_level := target_output }
    else d
  let d : DmcState := { d with shift_register := d.shift_register >>> 1 }
  let d : DmcState := { d with bits_remaining := d.bits_remaining - 1 }
  if d.bits_remaining = 0 then d.begin_output_cycle else d

/-- DmcState::clock of src/src/apu/dmc.rs: period divider, then the RDY /
sample-fetch logic (the fetch happens after the rdy_delay exceeds 2). -/
def DmcState.clock (d : DmcState) (mapper : Mapper) : DmcState :=
  let d : DmcState :=
    if d.period_current = 0 then
      ({ d with period_current := d.period_initial - 1 }).update_output_unit
    else { d with period_current := d.period_current - 1 }
  if d.sample_buffer_empty ∧ 0 < d.bytes_remaining then
    let d : DmcState := { d with rdy_line := true, rdy_delay := (d.rdy_delay + 1) % 256 }
    if 2 < d.rdy_delay then d.read_next_sample mapper else d
  else { d with rdy_line := false, rdy_delay := 0 }

/- ===================== PPU: src/src/ppu.rs ===================== -/

/-- SpriteLatch of src/src/ppu.rs. -/
structure SpriteLatch where
  tile_index : Nat
  bitmap_high : Nat
  bitmap_low : Nat
  attributes : Nat
  x_counter : Nat
  y_pos : Nat
  active : Bool
deriving DecidableEq

/-- SpriteLatch::new. -/
def SpriteLatch.new : SpriteLatch :=
  { tile_index := 0, bitmap_high := 0, bitmap_low := 0, attributes := 0,
    x_counter := 0xFF, y_pos := 0, active := false }

/-- SpriteLatch::shift: an active sprite shifts its bitmaps in the direction
given by the horizontal-flip attribute bit (u8 left shift wraps); an
inactive sprite counts its X counter down and activates at zero. -/
def SpriteLatch.shift (l : SpriteLatch) : SpriteLatch :=
  if l.active then
    if l.attributes &&& 0b01000000 ≠ 0 then
      { l with bitmap_high := l.bitmap_high >>> 1, bitmap_low := l.bitmap_low >>> 1 }
    else
      { l with bitmap_high := (l.bitmap_high <<< 1) % 256,
               bitmap_low := (l.bitmap_low <<< 1) % 256 }
  else
    let l : SpriteLatch := if 0 < l.x_counter then { l with x_counter := l.x_counter - 1 } else l
    if l.x_counter = 0 then { l with active := true } else l

/-- SpriteLatch::palette. -/
def SpriteLatch.palette (l : SpriteLatch) : Nat := l.attributes &&& 0b00000011

/-- SpriteLatch::bg_priority. -/
def SpriteLatch.bg_priority (l : SpriteLatch) : Bool := l.attributes &&& 0b00100000 != 0

/-- SpriteLatch::y_flip. -/
def SpriteLatch.y_flip (l : SpriteLatch) : Bool := l.attributes &&& 0b10000000 != 0

/-- SpriteLatch::palette_index: sample the high/low bitmap shifters at the
end selected by the horizontal-flip bit. -/
def SpriteLatch.palette_index (l : SpriteLatch) : Nat :=
  if l.attributes &&& 0b01000000 ≠ 0 then
    ((l.bitmap_high &&& 0b00000001) <<< 1) ||| (l.bitmap_low &&& 0b00000001)
  else
    ((l.bitmap_high &&& 0b10000000) >>> 6) ||| ((l.bitmap_low &&& 0b10000000) >>> 7)

/-- PpuState of src/src/ppu.rs.  Arrays are modelled as total functions
from the index.  Omitted relative to the source: internal_vram (only ever
addressed through the mapper in this file), the sprite_color /
sprite_index / sprite_bg_priority / sprite_zero debug arrays (written by
no modelled function), latch, oam_addr, oam_dma_high and read_buffer
(register-file plumbing not used by the rendering functions modelled
here), and the recent_reads / recent_writes debug vectors. -/
structure PpuState where
  oam : Nat → Nat
  secondary_oam : Nat → SpriteLatch
  secondary_oam_index : Nat
  palette : Nat → Nat
  open_bus : Nat
  control : Nat
  mask : Nat
  status : Nat
  current_frame : Nat
  current_scanline : Nat
  current_scanline_cycle : Nat
  screen : Nat → Nat
  write_toggle : Bool
  current_vram_address : Nat
  temporary_vram_address : Nat
  fine_x : Nat
  tile_shift_low : Nat
  tile_shift_high : Nat
  tile_low : Nat
  tile_high : Nat
  tile_index : Nat
  palette_shift_low : Nat
  palette_shift_high : Nat
  palette_latch : Nat
  attribute_byte : Nat
  sprite_zero_on_scanline : Bool

/-- A canonical PpuState used for concrete evaluations (PpuState::new with
the boot palette replaced by all-zero bytes; the palette contents are
irrelevant to every claim below). -/
def ppu0 : PpuState :=
  { oam := fun _ => 0
    secondary_oam := fun _ => SpriteLatch.new
    secondary_oam_index := 0
    palette := fun _ => 0
    open_bus := 0
    control := 0
    mask := 0
    status := 0
    current_frame := 0
    current_scanline := 0
    current_scanline_cycle := 0
    screen := fun _ => 0
    write_toggle := false
    current_vram_address := 0
    temporary_vram_address := 0
    fine_x := 0
    tile_shift_low := 0
    tile_shift_high := 0
    tile_low := 0
    tile_high := 0
    tile_index := 0
    palette_shift_low := 0
    palette_shift_high := 0
    palette_latch := 0
    attribute_byte := 0
    sprite_zero_on_scanline := false }

/-- PpuState::debug_read_byte.  The side-effect-free debug_read_ppu of the
mapper is modelled by the same read function as read_ppu (the difference is
invisible to the claims).  Addresses 0x3F00-0x3FFF hit palette RAM with the
0x3F10/14/18/1C mirroring and the monochrome mask. -/
def PpuState.debug_read_byte (s : PpuState) (mapper : Mapper) (address : Nat) : Nat :=
  let masked_address := address &&& 0x3FFF
  if masked_address ≤ 0x3EFF then
    (mapper masked_address).getD s.open_bus
  else
    let palette_address := masked_address &&& 0x1F
    let palette_address :=
      if palette_address &&& 0x13 = 0x10 then palette_address - 0x10 else palette_address
    let palette_entry := s.palette palette_address
    if s.mask &&& 0b00000001 ≠ 0 then palette_entry &&& 0x30 else palette_entry

/-- PpuState::read_byte: reads below 0x3F00 go through the mapper and
refresh open_bus; palette reads go through debug_read_byte. -/
def PpuState.read_byte (s : PpuState) (mapper : Mapper) (address : Nat) : PpuState × Nat :=
  let masked_address := address &&& 0x3FFF
  if masked_address ≤ 0x3EFF then
    match mapper masked_address with
    | some byte => ({ s with open_bus := byte }, byte)
    | none => (s, s.open_bus)
  else
    (s, s.debug_read_byte mapper address)


/-- The state component of read_byte (the mutated self of the source). -/
def PpuState.read_byte_state (s : PpuState) (mapper : Mapper) (address : Nat) : PpuState :=
  (s.read_byte mapper address).1

/-- The value component of read_byte (the returned byte of the source). -/
def PpuState.read_byte_value (s : PpuState) (mapper : Mapper) (address : Nat) : Nat :=
  (s.read_byte mapper address).2

/-- The secondary-OAM reset of src/src/ppu.rs (its method between
write_byte and evaluate_sprites): reset tile indices, deactivate all
latches, and rewind the secondary OAM write index. -/
def PpuState.init_secondary_oam (s : PpuState) : PpuState :=
  { s with
    secondary_oam := fun i =>
      if i < 8 then { s.secondary_oam i with tile_index := 0xFF, active := false }
      else s.secondary_oam i
    secondary_oam_index := 0 }

/-- PpuState::evaluate_sprites: scan all 64 OAM entries in order, copying
up to eight in-range sprites into secondary OAM; the ninth sets the
sprite-overflow status bit, and entry 0 records sprite_zero_on_scanline.
The Y-range test uses u8 arithmetic (the scanline is truncated to u8 and
the sum wraps mod 256 in a release build; the checked debug semantics of
the sum is studied separately as sprite_y_range_checked). -/
def PpuState.evaluate_sprites (s : PpuState) : PpuState :=
  let scanline := s.current_scanline % 256
  let sprite_size := if s.control &&& 0x20 ≠ 0 then 16 else 8
  let s : PpuState := { s with sprite_zero_on_scanline := false }
  let s : PpuState := s.init_secondary_oam
  (List.range 64).foldl (fun s i =>
    let y := s.oam (i * 4)
    if y ≤ scanline ∧ scanline < (y + sprite_size) % 256 then
      if s.secondary_oam_index < 8 then
        let s : PpuState := { s with
          secondary_oam := fun j =>
            if j = s.secondary_oam_index then
              { s.secondary_oam j with
                y_pos := s.oam (i * 4)
                tile_index := s.oam (i * 4 + 1)
                attributes := s.oam (i * 4 + 2)
                x_counter := s.oam (i * 4 + 3)
                active := false }
            else s.secondary_oam j }
        let s : PpuState := { s with secondary_oam_index := s.secondary_oam_index + 1 }
        if i = 0 then { s with sprite_zero_on_scanline := true } else s
      else
        { s with status := s.status ||| 0x20 }
    else s) s

/-- PpuState::rendering_enabled. -/
def PpuState.rendering_enabled (s : PpuState) : Prop := s.mask &&& 0b00011000 ≠ 0

instance (s : PpuState) : Decidable s.rendering_enabled := by
  unfold PpuState.rendering_enabled
  infer_instance

/-- PpuState::shift_bg_registers (u16 tile shifters and u8 palette
shifters, each wrapping on the left shift). -/
def PpuState.shift_bg_registers (s : PpuState) : PpuState :=
  { s with
    tile_shift_high := (s.tile_shift_high <<< 1) % 65536
    tile_shift_low := (s.tile_shift_low <<< 1) % 65536
    palette_shift_high := ((s.palette_shift_high <<< 1) % 256) ||| ((s.palette_latch &&& 0b10) >>> 1)
    palette_shift_low := ((s.palette_shift_low <<< 1) % 256) ||| (s.palette_latch &&& 0b01) }

/-- PpuState::reload_shift_registers. -/
def PpuState.reload_shift_registers (s : PpuState) : PpuState :=
  let attr_x := (s.current_vram_address &&& 0b0000000000010) >>> 1
  let attr_y := (s.current_vram_address &&& 0b0001000000) >>> 6
  let palette_shift := ((attr_y <<< 1) ||| attr_x) * 2
  { s with
    tile_shift_high := (s.tile_shift_high &&& 0xFF00) ||| s.tile_high
    tile_shift_low := (s.tile_shift_low &&& 0xFF00) ||| s.tile_low
    palette_latch := (s.attribute_byte >>> palette_shift) &&& 0b11 }

/-- PpuState::plot_pixel: store the 9-bit pixel token (emphasis bits from
mask, 6-bit palette entry) in the framebuffer. -/
def PpuState.plot_pixel (s : PpuState) (x y color : Nat) : PpuState :=
  let index := y * 256 + x
  let pixel_color := ((s.mask &&& 0b11100000) <<< 1) ||| (color &&& 0b00111111)
  { s with screen := fun i => if i = index then pixel_color else s.screen i }

/-- The for-loop of PpuState::draw_pixel that picks the winning sprite:
iterate secondary OAM indices in reverse; the final value is the lowest
active sprite with a non-zero palette index, or 8 when there is none. -/
def PpuState.winning_sprite_index (s : PpuState) : Nat :=
  (List.range s.secondary_oam_index).reverse.foldl
    (fun acc i =>
      if (s.secondary_oam i).active ∧ (s.secondary_oam i).palette_index ≠ 0 then i else acc)
    8

/-- The background palette index sampled by PpuState::draw_pixel from the
tile shifters at bit 0x8000 >> fine_x. -/
def PpuState.bg_palette_index_raw (s : PpuState) : Nat :=
  let bg_x_bit := 0b1000000000000000 >>> s.fine_x
  let bg_x_shift := 15 - s.fine_x
  ((s.tile_shift_high &&& bg_x_bit) >>> (bg_x_shift - 1)) |||
  ((s.tile_shift_low &&& bg_x_bit) >>> bg_x_shift)

/-- The background palette index after the BG-disable and left-8-pixel
clipping of PpuState::draw_pixel. -/
def PpuState.bg_palette_index_eff (s : PpuState) : Nat :=
  if s.mask &&& 0b00001000 = 0 ∨ (s.mask &&& 0b00000010 = 0 ∧ s.current_scanline_cycle - 1 < 8)
  then 0 else s.bg_palette_index_raw

/-- The attribute (palette number) bits sampled by PpuState::draw_pixel
from the palette shifters at bit 0x80 >> fine_x. -/
def PpuState.bg_palette_number_raw (s : PpuState) : Nat :=
  let attr_x_bit := 0b10000000 >>> s.fine_x
  let attr_x_shift := 7 - s.fine_x
  let bg_palette_high := (s.palette_shift_high &&& attr_x_bit) >>> attr_x_shift
  let bg_palette_low := (s.palette_shift_low &&& attr_x_bit) >>> attr_x_shift
  (bg_palette_high <<< 1) ||| bg_palette_low

/-- PpuState::draw_pixel of src/src/ppu.rs: resolve the background pixel,
then the sprite pass (when sprites are enabled and not left-clipped at this
x): the winning sprite may set the sprite-zero-hit status bit and may
override the pixel colour subject to its priority bit. -/
def PpuState.draw_pixel (s : PpuState) (mapper : Mapper) : PpuState :=
  let bg_palette_index := s.bg_palette_index_eff
  let bg_palette_number := if bg_palette_index = 0 then 0 else s.bg_palette_number_raw
  let px := s.current_scanline_cycle - 1
  let py := s.current_scanline
  let s1 := s.read_byte_state mapper ((bg_palette_number <<< 2) + bg_palette_index + 0x3F00)
  let pixel_color := s.read_byte_value mapper ((bg_palette_number <<< 2) + bg_palette_index + 0x3F00)
  if s.mask &&& 0b00010000 ≠ 0 ∧ (s.mask &&& 0b00000100 ≠ 0 ∨ 8 ≤ px) then
    let sprite_index := s.winning_sprite_index
    if sprite_index < 8 then
      let s2 :=
        if s.sprite_zero_on_scanline ∧ sprite_index = 0 ∧ bg_palette_index ≠ 0 then
          { s1 with status := s1.status ||| 0x40 }
        else s1
      if bg_palette_index = 0 ∨ ¬(s.secondary_oam sprite_index).bg_priority then
        let sprite_palette_number := (s.secondary_oam sprite_index).palette
        let sprite_palette_idx := (s.secondary_oam sprite_index).palette_index
        let s3 := s2.read_byte_state mapper ((sprite_palette_number <<< 2) + sprite_palette_idx + 0x3F10)
        let sprite_color := s2.read_byte_value mapper ((sprite_palette_number <<< 2) + sprite_palette_idx + 0x3F10)
        s3.plot_pixel px py sprite_color
      else
        s2.plot_pixel px py pixel_color
    else
      s1.plot_pixel px py pixel_color
  else
    s1.plot_pixel px py pixel_color

/-- PpuState::increment_coarse_x: increment coarse X, toggling the
horizontal nametable bit on wrap past 31. -/
def PpuState.increment_coarse_x (s : PpuState) : PpuState :=
  let coarse_x := s.current_vram_address &&& 0b11111
  let coarse_x := coarse_x + 1
  let s : PpuState :=
    if 0b11111 < coarse_x then
      { s with current_vram_address := s.current_vram_address ^^^ 0b0010000000000 }
    else s
  { s with current_vram_address :=
      (s.current_vram_address &&& 0b111111111100000) ||| (coarse_x &&& 0b11111) }

/-- PpuState::increment_coarse_y: increment coarse Y; only the value 30
wraps to 0 (flipping the vertical nametable bit); 31 wraps to 0 through the
final 5-bit mask without a flip, and 30 is reached from 29 only via the
flip case. -/
def PpuState.increment_coarse_y (s : PpuState) : PpuState :=
  let coarse_y := (s.current_vram_address &&& 0b1111100000) >>> 5
  let coarse_y := coarse_y + 1
  let s : PpuState :=
    if coarse_y = 30 then
      { s with current_vram_address := s.current_vram_address ^^^ 0b100000000000 }
    else s
  let coarse_y := if coarse_y = 30 then 0 else coarse_y
  { s with current_vram_address :=
      (s.current_vram_address &&& 0b111110000011111) ||| ((coarse_y &&& 0b11111) <<< 5) }

/-- PpuState::fine_y. -/
def PpuState.fine_y (s : PpuState) : Nat :=
  (s.current_vram_address &&& 0b111000000000000) >>> 12

/-- PpuState::increment_fine_y: increment fine Y, carrying into coarse Y
past 7. -/
def PpuState.increment_fine_y (s : PpuState) : PpuState :=
  let fine_y := s.fine_y
  let fine_y := fine_y + 1
  let carried := 7 < fine_y
  let fine_y := if carried then 0 else fine_y
  let s : PpuState := if carried then s.increment_coarse_y else s
  let s : PpuState := { s with current_vram_address := s.current_vram_address &&& 0b000111111111111 }
  { s with current_vram_address := s.current_vram_address ||| ((fine_y &&& 0b111) <<< 12) }

/-- PpuState::access_bg_tile_early: a no-read bus access through the
mapper (mapper.access_ppu); it has no effect on PPU state, so it is the
identity here. -/
def PpuState.access_bg_tile_early (s : PpuState) (_mapper : Mapper) : PpuState := s

/-- PpuState::fetch_bg_tile: the 8-dot background fetch pattern
(sub_cycle = (dot - 1) mod 8): nametable byte, attribute byte, tile low,
tile high, and at sub-cycle 7 the shift-register reload plus the coarse-X
increment. -/
def PpuState.fetch_bg_tile (s : PpuState) (mapper : Mapper) (sub_cycle : Nat) : PpuState :=
  let pattern_address := if s.control &&& 0x10 ≠ 0 then 0x1000 else 0
  if sub_cycle = 0 then
    let tile_address := 0x2000 ||| (s.current_vram_address &&& 0x0FFF)
    { s.read_byte_state mapper tile_address with tile_index := s.read_byte_value mapper tile_address }
  else if sub_cycle = 2 then
    let attribute_address :=
      0x23C0 ||| (s.current_vram_address &&& 0x0C00) |||
      ((s.current_vram_address >>> 4) &&& 0x38) ||| ((s.current_vram_address >>> 2) &&& 0x07)
    { s.read_byte_state mapper attribute_address with
        attribute_byte := s.read_byte_value mapper attribute_address }
  else if sub_cycle = 4 then
    let tile_low_address := pattern_address + s.tile_index * 16 + s.fine_y
    { s.read_byte_state mapper tile_low_address with tile_low := s.read_byte_value mapper tile_low_address }
  else if sub_cycle = 6 then
    let tile_high_address := pattern_address + s.tile_index * 16 + 8 + s.fine_y
    { s.read_byte_state mapper tile_high_address with tile_high := s.read_byte_value mapper tile_high_address }
  else if sub_cycle = 7 then
    s.reload_shift_registers.increment_coarse_x
  else s

/-- PpuState::fetch_sprite_tiles: throwaway nametable reads at sub-cycles
0 and 2, then the pattern fetches at sub-cycles 4 and 6 with the
8x16 tile-index split, vertical flip, and the y_offset >= 8 row bump
(wrapping u16/u8 arithmetic as in the source). -/
def PpuState.fetch_sprite_tiles (s : PpuState) (mapper : Mapper) : PpuState :=
  let sub_cycle := (s.current_scanline_cycle - 257) % 8
  let s : PpuState :=
    if sub_cycle = 0 ∨ sub_cycle = 2 then
      s.read_byte_state mapper (0x2000 ||| (s.current_vram_address &&& 0x0FFF))
    else s
  if sub_cycle = 4 ∨ sub_cycle = 6 then
    let sprite_index := (s.current_scanline_cycle - 257) / 8
    let tile_index := (s.secondary_oam sprite_index).tile_index
    let sprite_size := if s.control &&& 0b00100000 ≠ 0 then 16 else 8
    let pattern_address :=
      if sprite_size = 16 then (if tile_index &&& 0b1 ≠ 0 then 0x1000 else 0)
      else (if s.control &&& 0b00001000 ≠ 0 then 0x1000 else 0)
    let tile_index := if sprite_size = 16 then tile_index &&& 0b11111110 else tile_index
    let y_offset :=
      (s.current_scanline + 65536 - (s.secondary_oam sprite_index).y_pos % 65536) % 65536
    let y_offset :=
      if (s.secondary_oam sprite_index).y_flip then
        (sprite_size - 1 + 65536 - y_offset) % 65536
      else y_offset
    let bump := 8 ≤ y_offset
    let tile_index := if bump then (tile_index + 1) % 256 else tile_index
    let y_offset := if bump then (y_offset + 65536 - 8) % 65536 else y_offset
    let y_offset := y_offset % 8
    let tile_address := ((tile_index * 16 + y_offset) &&& 0xFFF) ||| pattern_address
    if sub_cycle = 4 then
      let s2 := s.read_byte_state mapper tile_address
      let b := s.read_byte_value mapper tile_address
      { s2 with secondary_oam := fun j =>
          if j = sprite_index then { s2.secondary_oam j with bitmap_low := b }
          else s2.secondary_oam j }
    else
      let s2 := s.read_byte_state mapper (tile_address + 8)
      let b := s.read_byte_value mapper (tile_address + 8)
      { s2 with secondary_oam := fun j =>
          if j = sprite_index then { s2.secondary_oam j with bitmap_high := b }
          else s2.secondary_oam j }
  else s

/-- PpuState::shift_sprites: every secondary-OAM latch below the current
write index shifts once. -/
def PpuState.shift_sprites (s : PpuState) : PpuState :=
  { s with secondary_oam := fun j =>
      if j < s.secondary_oam_index then (s.secondary_oam j).shift else s.secondary_oam j }

/-- PpuState::render_scanline of src/src/ppu.rs (visible scanlines): with
rendering enabled, dot 0 is the early bus access, dots 1-256 draw a pixel,
shift, fetch, and at dot 256 increment fine Y; dots 257-320 reload the
horizontal scroll bits and evaluate sprites (at 257) and run sprite
fetches; 321-336 prefetch; 337/339 dummy nametable reads.  With rendering
disabled, dots 1-256 plot the backdrop (or the palette entry at v when v
points into palette space). -/
def PpuState.render_scanline (s : PpuState) (mapper : Mapper) : PpuState :=
  if s.rendering_enabled then
    if s.current_scanline_cycle = 0 then
      s.access_bg_tile_early mapper
    else if 1 ≤ s.current_scanline_cycle ∧ s.current_scanline_cycle ≤ 256 then
      let s : PpuState := s.draw_pixel mapper
      let s : PpuState := s.shift_bg_registers
      let s : PpuState := s.shift_sprites
      let sub_cycle := (s.current_scanline_cycle - 1) % 8
      let s : PpuState := s.fetch_bg_tile mapper sub_cycle
      if s.current_scanline_cycle = 256 then s.increment_fine_y else s
    else if 257 ≤ s.current_scanline_cycle ∧ s.current_scanline_cycle ≤ 320 then
      let s : PpuState :=
        if s.current_scanline_cycle = 257 then
          let s : PpuState := { s with current_vram_address :=
            (s.current_vram_address &&& 0b111101111100000) |||
            (s.temporary_vram_address &&& 0b0010000011111) }
          s.evaluate_sprites
        else s
      s.fetch_sprite_tiles mapper
    else if 321 ≤ s.current_scanline_cycle ∧ s.current_scanline_cycle ≤ 336 then
      let s : PpuState := s.shift_bg_registers
      s.fetch_bg_tile mapper ((s.current_scanline_cycle - 321) % 8)
    else if s.current_scanline_cycle = 337 ∨ s.current_scanline_cycle = 339 then
      let tile_address := 0x2000 ||| (s.current_vram_address &&& 0x0FFF)
      { s.read_byte_state mapper tile_address with tile_index := s.read_byte_value mapper tile_address }
    else s
  else
    if 1 ≤ s.current_scanline_cycle ∧ s.current_scanline_cycle ≤ 256 then
      let s1 := s.read_byte_state mapper 0x3F00
      let pixel_color := s.read_byte_value mapper 0x3F00
      let s2 :=
        if 0x3F00 ≤ s1.current_vram_address ∧ s1.current_vram_address ≤ 0x3FFF then
          s1.read_byte_state mapper s1.current_vram_address
        else s1
      let pixel_color :=
        if 0x3F00 ≤ s1.current_vram_address ∧ s1.current_vram_address ≤ 0x3FFF then
          s1.read_byte_value mapper s1.current_vram_address
        else pixel_color
      s2.plot_pixel (s2.current_scanline_cycle - 1) s2.current_scanline pixel_color
    else s

/- ===================== console: src/src/nes.rs ===================== -/

/-- NesState of src/src/nes.rs.  Modelled from the spec: the cpu, memory,
ppu, registers, apu and mapper components referenced by
NesState::save_state are serialized by modules that are not under src/
(cycle_cpu.rs, memory.rs, the save-state half of the shipped ppu, the apu
module root, and the mapper implementations); spec section 6 specifies
their serialization only as a flat byte stream of every field, so each
component is modelled as its byte record.  The scalar fields
(master_clock, the controller ports, input_latch, last_frame) are taken
from nes.rs itself. -/
structure NesState where
  apu : List Nat
  cpu : List Nat
  memory : List Nat
  ppu : List Nat
  registers : List Nat
  master_clock : Nat
  p1_input : Nat
  p1_data : Nat
  p2_input : Nat
  p2_data : Nat
  input_latch : Bool
  mapper : List Nat
  last_frame : Nat
deriving DecidableEq

/-- NesState::save_state of src/src/nes.rs: components in source order,
then the scalar fields, the mapper, and last_frame. -/
def NesState.save_state (s : NesState) : List Nat :=
  let buff : List Nat := []
  let buff := buff ++ s.apu
  let buff := buff ++ s.cpu
  let buff := buff ++ s.memory
  let buff := buff ++ s.ppu
  let buff := buff ++ s.registers
  let buff := buff ++ le8 s.master_clock
  let buff := save_u8 buff s.p1_input
  let buff := save_u8 buff s.p1_data
  let buff := save_u8 buff s.p2_input
  let buff := save_u8 buff s.p2_data
  let buff := save_bool buff s.input_latch
  let buff := buff ++ s.mapper
  buff ++ le4 s.last_frame

/-- NesState::load_state of src/src/nes.rs: consumes the stream from the
end, every field in exact reverse order of save_state.  Each component
reads back as many bytes as its own record holds. -/
def NesState.load_state (s : NesState) (buff : List Nat) : NesState × List Nat :=
  let (buff, last_frame) := split_off_le 4 buff
  let (buff, mapper) := split_off_blob s.mapper.length buff
  let (buff, input_latch) := pop_bool buff
  let (buff, p2_data) := pop_u8 buff
  let (buff, p2_input) := pop_u8 buff
  let (buff, p1_data) := pop_u8 buff
  let (buff, p1_input) := pop_u8 buff
  let (buff, master_clock) := split_off_le 8 buff
  let (buff, registers) := split_off_blob s.registers.length buff
  let (buff, ppu) := split_off_blob s.ppu.length buff
  let (buff, memory) := split_off_blob s.memory.length buff
  let (buff, cpu) := split_off_blob s.cpu.length buff
  let (buff, apu) := split_off_blob s.apu.length buff
  ({ apu := apu, cpu := cpu, memory := memory, ppu := ppu, registers := registers,
     master_clock := master_clock, p1_input := p1_input, p1_data := p1_data,
     p2_input := p2_input, p2_data := p2_data, input_latch := input_latch,
     mapper := mapper, last_frame := last_frame }, buff)

/- ============ overflow-checked arithmetic (debug-build semantics) ============ -/

/-- Rust debug-build subtraction on an unsigned integer: None on
underflow (the build panics there). -/
def checked_sub (a b : Nat) : Option Nat := if b ≤ a then some (a - b) else none

/-- Rust debug-build u8 addition: None on overflow past 255. -/
def checked_add_u8 (a b : Nat) : Option Nat := if a + b ≤ 255 then some (a + b) else none

/-- The Y-range test of PpuState::evaluate_sprites under debug-build
(overflow-checked) u8 arithmetic, with the Rust short-circuit of &&:
`y + sprite_size` is evaluated only when `scanline >= y` already holds. -/
def sprite_y_range_checked (scanline y sprite_size : Nat) : Option Bool :=
  if y ≤ scanline then
    (checked_add_u8 y sprite_size).map (fun t => decide (scanline < t))
  else some false

/-- LegacyPulseChannelState::target_period (src/src/apu.rs) under
debug-build (overflow-checked) u16 arithmetic: the ones-complement branch
computes `period_initial - change_amount - 1` with two plain
subtractions. -/
def legacy_target_period_checked (p : LegacyPulseChannelState) : Option Nat :=
  let change_amount := p.period_initial >>> p.sweep_shift
  if p.sweep_negate then
    if p.sweep_ones_compliment then
      (checked_sub p.period_initial change_amount).bind (fun x => checked_sub x 1)
    else
      checked_sub p.period_initial change_amount
  else
    if p.period_initial + change_amount ≤ 65535 then some (p.period_initial + change_amount)
    else none

/- ===================== claim theorems ===================== -/

/-- PulseChannelState::new of src/src/apu/pulse.rs (modelled fields only;
the envelope defaults are the spec-modelled VolumeEnvelopeState::new). -/
def PulseChannelState.mk_new (sweep_ones_compliment : Bool) : PulseChannelState :=
  { last_edge := false
    envelope := { looping := false, enabled := false, start_flag := false,
                  volume := 0, decay := 0, divider := 0 }
    length_counter := LengthCounterState.new
    sweep_enabled := false
    sweep_period := 0
    sweep_divider := 0
    sweep_negate := false
    sweep_shift := 0
    sweep_reload := false
    sweep_ones_compliment := sweep_ones_compliment
    duty := 1
    sequence_counter := 0
    period_initial := 0
    period_current := 0
    cpu_clock_rate := 1786860 }

/-- The failing input of claim C1: 4-step mode, no pending reset, counter
one below 29828, frame IRQ disabled via the 0x4017 inhibit bit. -/
def apu_c1 : ApuState :=
  { ApuState.new with frame_sequencer := 29827, disable_interrupt := true }

/-- C1: in 4-step mode clock_frame_sequencer raises frame_interrupt at
count 29828 even though disable_interrupt is set: the inhibit flag is
written by register 0x4017 but never consulted, so the claimed suppression
does not exist in the code.  (The same unconditional assignment runs at
29829 and 29830.) -/
theorem C1_frame_irq_fires_despite_disable :
    apu_c1.disable_interrupt = true ∧
    apu_c1.frame_sequencer_mode = 0 ∧
    apu_c1.frame_reset_delay = 0 ∧
    apu_c1.frame_interrupt = false ∧
    (apu_c1.clock_frame_sequencer).frame_sequencer = 29828 ∧
    (apu_c1.clock_frame_sequencer).frame_interrupt = true := by
  decide

/-- An ApuState sitting on an odd CPU cycle, for claim C2. -/
def apu_c2 : ApuState := { ApuState.new with current_cycle := 1 }

/-- C2 counterexample: a frame-counter write landing on an odd CPU cycle
still schedules the reset 4 cycles out, not 3: write_register(0x4017)
assigns frame_reset_delay = 4 unconditionally and never looks at
current_cycle. -/
theorem C2_counterexample :
    apu_c2.current_cycle % 2 = 1 ∧
    (apu_c2.write_register 0x4017 0).frame_reset_delay = 4 ∧
    ¬(apu_c2.write_register 0x4017 0).frame_reset_delay = 3 := by
  decide

/-- C2 amended: writing 0x4017 always schedules the sequencer reset 4 CPU
cycles out regardless of cycle parity; when the delay expires the sequencer
counter is zeroed, and in 5-step mode one quarter-frame and one half-frame
clock are issued immediately (the half-frame clock sweeps both pulse
channels; the quarter-frame clock is an empty body). -/
theorem C2_amended_thm :
    (∀ (s : ApuState) (data : Nat),
      (s.write_register 0x4017 data).frame_reset_delay = 4) ∧
    (∀ s : ApuState, s.frame_reset_delay = 1 →
      (s.clock_frame_sequencer).frame_sequencer = 0 ∧
      (s.frame_sequencer_mode = 1 →
        (s.clock_frame_sequencer).pulse_1 = s.pulse_1.update_sweep ∧
        (s.clock_frame_sequencer).pulse_2 = s.pulse_2.update_sweep)) := by
  constructor
  · intro s data
    simp [ApuState.write_register]
  · intro s h
    by_cases hm : s.frame_sequencer_mode = 1
    · simp [ApuState.clock_frame_sequencer, h, hm, ApuState.clock_quarter_frame,
            ApuState.clock_half_frame]
    · by_cases hm0 : s.frame_sequencer_mode = 0 <;>
        simp [ApuState.clock_frame_sequencer, h, hm, hm0, ApuState.clock_quarter_frame,
              ApuState.clock_half_frame]

/-- A concrete state for the C2 witness: reset delay about to expire in
5-step mode. -/
def apu_c2w : ApuState :=
  { ApuState.new with frame_reset_delay := 1, frame_sequencer_mode := 1 }

/-- C2 witness: the amended theorem applied at concrete inputs. -/
theorem C2_amended_thm_witness :
    (apu_c2w.write_register 0x4017 0x80).frame_reset_delay = 4 ∧
    (apu_c2w.clock_frame_sequencer).frame_sequencer = 0 ∧
    (apu_c2w.clock_frame_sequencer).pulse_1 = apu_c2w.pulse_1.update_sweep :=
  ⟨C2_amended_thm.1 apu_c2w 0x80, (C2_amended_thm.2 apu_c2w rfl).1,
   ((C2_amended_thm.2 apu_c2w rfl).2 rfl).1⟩

/-- The pulse-1 state of the sweep example in the spec: period 0x400, shift 1,
negate, ones complement, sweep enabled, sweep period 0, divider 0. -/
def pulse_c3 : PulseChannelState :=
  { PulseChannelState.mk_new true with
      sweep_enabled := true
      sweep_negate := true
      sweep_shift := 1
      period_initial := 0x400 }

/-- C3: pulse 1 ones-complement sweep target is
period_initial - (period_initial >> shift) - 1, with target 0 in the
special case shift == 0 or period == 0; and one half-frame sweep clock of
the example state lowers period 0x400 to 0x1FF = 0x400 - 0x200 - 1. -/
theorem C3_sweep_ones_complement_thm :
    (∀ p : PulseChannelState, p.sweep_negate = true → p.sweep_ones_compliment = true →
      p.target_period =
        if p.sweep_shift = 0 ∨ p.period_initial = 0 then 0
        else p.period_initial - (p.period_initial >>> p.sweep_shift) - 1) ∧
    (pulse_c3.update_sweep).period_initial = 0x1FF := by
  constructor
  · intro p h1 h2
    simp [PulseChannelState.target_period, h1, h2]
  · decide

/-- C3 witness: the general target-period law applied at the example
state. -/
theorem C3_sweep_ones_complement_thm_witness :
    pulse_c3.target_period =
      if pulse_c3.sweep_shift = 0 ∨ pulse_c3.period_initial = 0 then 0
      else pulse_c3.period_initial - (pulse_c3.period_initial >>> pulse_c3.sweep_shift) - 1 :=
  C3_sweep_ones_complement_thm.1 pulse_c3 rfl rfl

/-- A pulse-2 state (twos-complement sweep) with negate set, shift 0, and
an otherwise playing note, for claim C4. -/
def pulse_c4 : PulseChannelState :=
  { PulseChannelState.mk_new false with
      sweep_negate := true
      period_initial := 8
      length_counter := { length := 1, halt_flag := false, channel_enabled := true }
      envelope := { looping := false, enabled := false, start_flag := false,
                    volume := 5, decay := 0, divider := 0 } }

/-- C4 counterexample: with shift=0 and negate=1, pulse 2 is NOT muted:
its twos-complement target is period - period = 0, which passes the
target <= 0x7FF mute check, so the channel outputs its duty/volume sample
(5 here), contradicting the claim that pulse 2 is muted under this
configuration. -/
theorem C4_counterexample :
    pulse_c4.sweep_shift = 0 ∧ pulse_c4.sweep_negate = true ∧
    pulse_c4.sweep_ones_compliment = false ∧
    0 < pulse_c4.length_counter.length ∧ 8 ≤ pulse_c4.period_initial ∧
    0 < pulse_c4.envelope.current_volume ∧
    pulse_c4.output = 5 ∧ ¬pulse_c4.output = 0 := by
  decide

/-- C4 amended: with shift=0 and negate=1 and a playing note, NEITHER
pulse channel is muted by the sweep unit: pulse 1 by the ones-complement
special case (target 0) and pulse 2 because its twos-complement target is
period - period = 0; both produce the plain duty/envelope sample. -/
theorem C4_amended_thm :
    ∀ p : PulseChannelState, p.sweep_shift = 0 → p.sweep_negate = true →
      0 < p.length_counter.length → 8 ≤ p.period_initial →
      p.output = ((p.duty >>> p.sequence_counter) &&& 1) * p.envelope.current_volume := by
  intro p h0 hn hl hp
  by_cases hc : p.sweep_ones_compliment <;>
    simp [PulseChannelState.output, PulseChannelState.target_period, h0, hn, hl, hc,
          Nat.shiftRight_zero, Nat.sub_self, Nat.not_lt.mpr hp, Nat.lt_irrefl,
          Nat.pos_iff_ne_zero.mp hl]

/-- C4 witness: the amended no-mute law applied to the concrete pulse-2
state (and hence its output is its duty/volume sample). -/
theorem C4_amended_thm_witness :
    pulse_c4.output =
      ((pulse_c4.duty >>> pulse_c4.sequence_counter) &&& 1) * pulse_c4.envelope.current_volume :=
  C4_amended_thm pulse_c4 rfl rfl (by decide) (by decide)

/-- C7 counterexample: with pulse 1 present (channel-enable state is not
even consulted), writing 0x4003 with length index 1 stores the raw index 1
into pulse_1.length instead of the table value 254 (and not 0 either,
although the legacy channel starts disabled). -/
theorem C7_counterexample :
    ApuState.new.pulse_1.enabled = false ∧
    (ApuState.new.write_register 0x4003 0b00001000).pulse_1.length = 1 ∧
    length_table.getD 1 0 = 254 ∧
    ¬(ApuState.new.write_register 0x4003 0b00001000).pulse_1.length = 254 ∧
    ¬(ApuState.new.write_register 0x4003 0b00001000).pulse_1.length = 0 := by
  decide

/-- C7 amended: LengthCounterState::set_length does load the claimed table
value, gated on channel_enabled (0 when disabled); but the register-write
path that exists in this repository, ApuState::write_register(0x4003),
stores the raw 5-bit index with no table lookup and no enable gate. -/
theorem C7_amended_thm :
    (∀ (lc : LengthCounterState) (index : Nat),
      (lc.set_length index).length =
        if lc.channel_enabled then length_table.getD index 0 else 0) ∧
    (∀ (s : ApuState) (data : Nat),
      ((s.write_register 0x4003 data).pulse_1).length = (data &&& 0b11111000) >>> 3) := by
  constructor
  · intro lc index
    by_cases h : lc.channel_enabled <;> simp [LengthCounterState.set_length, h]
  · intro s data
    simp [ApuState.write_register]

/-- A mapper whose every read returns byte 0 (any concrete PRG contents
work for the claims below). -/
def mapper_zero : Mapper := fun _ => some 0

/-- The DMC scenario state of the spec: sample at 0xC000, 16 bytes, not
looping, IRQ enabled (current_address latched to the starting address as
the 0x4015 enable path does). -/
def dmc_c8 : DmcState :=
  { DmcState.new with
      starting_address := 0xC000
      current_address := 0xC000
      sample_length := 16
      bytes_remaining := 16
      looping := false
      interrupt_enabled := true }

/-- The u16 mask 0x7FFF is reduction mod 2^15. -/
theorem and_mask15 (x : Nat) : x &&& 0x7FFF = x % 32768 := by
  have h15 : (0x7FFF : Nat) = 2 ^ 15 - 1 := by norm_num
  rw [h15, Nat.and_pow_two_sub_one_eq_mod]

/-- After a fetch whose effective address was 0xFFFF, the incremented
wrapping u16 address masks back to 0, so the next effective address is
0x8000. -/
theorem dmc_wrap_helper (cur : Nat) (hc2 : cur &&& 0x7FFF = 0x7FFF) :
    0x8000 ||| ((cur + 1) % 65536 &&& 0x7FFF) = 0x8000 := by
  rw [and_mask15] at hc2
  have h0 : (cur + 1) % 65536 &&& 0x7FFF = 0 := by rw [and_mask15]; omega
  rw [h0]
  decide

/-- C8: each DMC sample fetch reads through the mapper from
0x8000 | (current_address & 0x7FFF), bumps the wrapping u16 address,
decrements bytes_remaining, and at zero reloads start+length when looping
or raises the DMC IRQ when enabled; when the effective fetch address was
0xFFFF the next effective fetch address is 0x8000.  Iterating 16 fetches
from the spec scenario leaves bytes_remaining 0, the IRQ flag raised and
current_address 0xC010. -/
theorem C8_dmc_fetch_thm :
    (∀ (d : DmcState) (m : Mapper), 0 < d.bytes_remaining →
      (d.read_next_sample m).sample_buffer = (m (0x8000 ||| (d.current_address &&& 0x7FFF))).getD 0 ∧
      (d.read_next_sample m).bytes_remaining =
        (if d.bytes_remaining = 1 ∧ d.looping then d.sample_length else d.bytes_remaining - 1) ∧
      (d.read_next_sample m).current_address =
        (if d.bytes_remaining = 1 ∧ d.looping then d.starting_address
         else (d.current_address + 1) % 65536) ∧
      (d.read_next_sample m).interrupt_flag =
        (if d.bytes_remaining = 1 ∧ ¬d.looping ∧ d.interrupt_enabled then true
         else d.interrupt_flag) ∧
      (d.current_address &&& 0x7FFF = 0x7FFF → d.looping = false →
        0x8000 ||| ((d.read_next_sample m).current_address &&& 0x7FFF) = 0x8000)) ∧
    ((fun d : DmcState => d.read_next_sample mapper_zero)^[16] dmc_c8).bytes_remaining = 0 ∧
    ((fun d : DmcState => d.read_next_sample mapper_zero)^[16] dmc_c8).interrupt_flag = true ∧
    ((fun d : DmcState => d.read_next_sample mapper_zero)^[16] dmc_c8).current_address = 0xC010 := by
  refine ⟨?_, by decide, by decide, by decide⟩
  intro d m hb
  unfold DmcState.read_next_sample
  by_cases h1 : d.bytes_remaining = 1
  · have hc : d.bytes_remaining - 1 = 0 := by omega
    cases hm : m (0x8000 ||| (d.current_address &&& 0x7FFF)) <;>
      by_cases hL : d.looping <;>
      by_cases hI : d.interrupt_enabled <;>
      simp [hm, hc, h1, hL, hI] <;>
      (intros; exact dmc_wrap_helper d.current_address (by assumption))
  · have hc : ¬(d.bytes_remaining - 1 = 0) := by omega
    cases hm : m (0x8000 ||| (d.current_address &&& 0x7FFF)) <;>
      by_cases hL : d.looping <;>
      simp [hm, hc, h1, hL] <;>
      (intros; exact dmc_wrap_helper d.current_address (by assumption))

/-- C8 witness: the single-fetch law applied at the scenario state (whose
first fetch reads 0xC000 and raises nothing yet). -/
theorem C8_dmc_fetch_thm_witness :
    (dmc_c8.read_next_sample mapper_zero).sample_buffer =
      (mapper_zero (0x8000 ||| (dmc_c8.current_address &&& 0x7FFF))).getD 0 ∧
    (dmc_c8.read_next_sample mapper_zero).bytes_remaining =
      (if dmc_c8.bytes_remaining = 1 ∧ dmc_c8.looping then dmc_c8.sample_length
       else dmc_c8.bytes_remaining - 1) :=
  ⟨(C8_dmc_fetch_thm.1 dmc_c8 mapper_zero (by decide)).1,
   (C8_dmc_fetch_thm.1 dmc_c8 mapper_zero (by decide)).2.1⟩

/-- The claim-C9 failing input: pulse 1 (ones complement) with negate set
and shift 0, period 0x400 (any value: shift 0 makes change == period). -/
def pulse_c9 : LegacyPulseChannelState :=
  { LegacyPulseChannelState.new true with sweep_negate := true, period_initial := 0x400 }

/-- C9 counterexample: the legacy ones-complement sweep subtraction is NOT
total: with shift 0 (change_amount == period) the final `- 1` underflows
(checked/debug semantics yields no value, i.e. the build with overflow
checks panics), and likewise for period 0. -/
theorem C9_counterexample :
    pulse_c9.sweep_negate = true ∧ pulse_c9.sweep_ones_compliment = true ∧
    pulse_c9.sweep_shift = 0 ∧
    legacy_target_period_checked pulse_c9 = none ∧
    legacy_target_period_checked { pulse_c9 with period_initial := 0, sweep_shift := 3 } = none := by
  decide

/-- C9 amended: the sprite Y-range test is total for every OAM Y byte and
both sprite sizes thanks to the short-circuit of && (the sum is only
evaluated when scanline >= y, and evaluate_sprites runs on scanlines up to
239, so y + size <= 255); the legacy ones-complement sweep subtraction is
total exactly when shift is nonzero and the period is nonzero (the
pulse.rs module restores totality with its special case, cf. C3). -/
theorem C9_amended_thm :
    (∀ scanline y sprite_size : Nat, scanline ≤ 239 →
      sprite_size = 8 ∨ sprite_size = 16 →
      (sprite_y_range_checked scanline y sprite_size).isSome) ∧
    (∀ p : LegacyPulseChannelState, p.sweep_negate = true → p.sweep_ones_compliment = true →
      ((legacy_target_period_checked p).isSome ↔
        (p.sweep_shift ≠ 0 ∧ p.period_initial ≠ 0))) := by
  constructor
  · intro scanline y sprite_size hs hsize
    unfold sprite_y_range_checked checked_add_u8
    by_cases hy : y ≤ scanline
    · have hb : y + sprite_size ≤ 255 := by omega
      simp [hy, hb]
    · simp [hy]
  · intro p h1 h2
    have hle : p.period_initial >>> p.sweep_shift ≤ p.period_initial := by
      rw [Nat.shiftRight_eq_div_pow]; exact Nat.div_le_self _ _
    have key : (1 ≤ p.period_initial - p.period_initial >>> p.sweep_shift) ↔
        (p.sweep_shift ≠ 0 ∧ p.period_initial ≠ 0) := by
      rw [Nat.shiftRight_eq_div_pow]
      constructor
      · intro h
        constructor
        · intro h0
          rw [h0] at h
          simp at h
        · intro h0
          rw [h0] at h
          simp at h
      · rintro ⟨hsh, hp⟩
        have hlt : p.period_initial / 2 ^ p.sweep_shift < p.period_initial :=
          Nat.div_lt_self (Nat.pos_of_ne_zero hp) (Nat.one_lt_two_pow hsh)
        omega
    unfold legacy_target_period_checked checked_sub
    simp only [h1, h2, if_true, if_pos hle, Option.some_bind]
    by_cases hif : 1 ≤ p.period_initial - p.period_initial >>> p.sweep_shift
    · rw [if_pos hif]
      simpa using key.mp hif
    · rw [if_neg hif]
      simp only [Option.isSome_none, Bool.false_eq_true, false_iff]
      intro hk
      exact hif (key.mpr hk)

/-- A pulse-1 state where the legacy sweep subtraction is total, for the
C9 witness. -/
def pulse_c9b : LegacyPulseChannelState :=
  { LegacyPulseChannelState.new true with
      sweep_negate := true, sweep_shift := 1, period_initial := 0x400 }

/-- C9 witness: the amended totality facts at concrete inputs. -/
theorem C9_amended_thm_witness :
    (sprite_y_range_checked 51 50 8).isSome ∧
    ((legacy_target_period_checked pulse_c9b).isSome ↔
      (pulse_c9b.sweep_shift ≠ 0 ∧ pulse_c9b.period_initial ≠ 0)) :=
  ⟨C9_amended_thm.1 51 50 8 (by decide) (Or.inl rfl),
   C9_amended_thm.2 pulse_c9b rfl rfl⟩


/- ============ PPU frame lemmas: record updates and field preservation ============ -/

/-- A status write leaves the v register unchanged. -/
theorem status_upd_v (t : PpuState) (x : Nat) :
    ({ t with status := x } : PpuState).current_vram_address = t.current_vram_address := rfl

/-- A status write stores exactly its argument. -/
theorem status_upd_status (t : PpuState) (x : Nat) :
    ({ t with status := x } : PpuState).status = x := rfl

/-- A status write leaves the dot counter unchanged. -/
theorem status_upd_cycle (t : PpuState) (x : Nat) :
    ({ t with status := x } : PpuState).current_scanline_cycle = t.current_scanline_cycle := rfl

/-- plot_pixel changes only the framebuffer. -/
theorem plot_pixel_v (s : PpuState) (x y c : Nat) :
    (s.plot_pixel x y c).current_vram_address = s.current_vram_address := rfl

/-- plot_pixel changes only the framebuffer. -/
theorem plot_pixel_status (s : PpuState) (x y c : Nat) :
    (s.plot_pixel x y c).status = s.status := rfl

/-- plot_pixel changes only the framebuffer. -/
theorem plot_pixel_cycle (s : PpuState) (x y c : Nat) :
    (s.plot_pixel x y c).current_scanline_cycle = s.current_scanline_cycle := rfl

/-- A PPU bus read mutates only open_bus: v is preserved. -/
theorem read_byte_state_v (s : PpuState) (m : Mapper) (a : Nat) :
    (s.read_byte_state m a).current_vram_address = s.current_vram_address := by
  simp only [PpuState.read_byte_state, PpuState.read_byte]
  split
  · split <;> rfl
  · rfl

/-- A PPU bus read mutates only open_bus: status is preserved. -/
theorem read_byte_state_status (s : PpuState) (m : Mapper) (a : Nat) :
    (s.read_byte_state m a).status = s.status := by
  simp only [PpuState.read_byte_state, PpuState.read_byte]
  split
  · split <;> rfl
  · rfl

/-- A PPU bus read mutates only open_bus: the dot counter is preserved. -/
theorem read_byte_state_cycle (s : PpuState) (m : Mapper) (a : Nat) :
    (s.read_byte_state m a).current_scanline_cycle = s.current_scanline_cycle := by
  simp only [PpuState.read_byte_state, PpuState.read_byte]
  split
  · split <;> rfl
  · rfl

/-- draw_pixel never touches the v register. -/
theorem draw_pixel_v (s : PpuState) (m : Mapper) :
    (s.draw_pixel m).current_vram_address = s.current_vram_address := by
  unfold PpuState.draw_pixel
  dsimp only
  by_cases h1 : s.mask &&& 16 ≠ 0 ∧ (s.mask &&& 4 ≠ 0 ∨ 8 ≤ s.current_scanline_cycle - 1)
  · rw [if_pos h1]
    by_cases h2 : s.winning_sprite_index < 8
    · rw [if_pos h2]
      by_cases h3 : s.sprite_zero_on_scanline = true ∧ s.winning_sprite_index = 0 ∧
          s.bg_palette_index_eff ≠ 0
      · rw [if_pos h3]
        by_cases h4 : s.bg_palette_index_eff = 0 ∨
            ¬(s.secondary_oam s.winning_sprite_index).bg_priority = true
        · rw [if_pos h4, plot_pixel_v, read_byte_state_v, status_upd_v, read_byte_state_v]
        · rw [if_neg h4, plot_pixel_v, status_upd_v, read_byte_state_v]
      · rw [if_neg h3]
        by_cases h4 : s.bg_palette_index_eff = 0 ∨
            ¬(s.secondary_oam s.winning_sprite_index).bg_priority = true
        · rw [if_pos h4, plot_pixel_v, read_byte_state_v, read_byte_state_v]
        · rw [if_neg h4, plot_pixel_v, read_byte_state_v]
    · rw [if_neg h2, plot_pixel_v, read_byte_state_v]
  · rw [if_neg h1, plot_pixel_v, read_byte_state_v]

/-- draw_pixel never touches the dot counter. -/
theorem draw_pixel_cycle (s : PpuState) (m : Mapper) :
    (s.draw_pixel m).current_scanline_cycle = s.current_scanline_cycle := by
  unfold PpuState.draw_pixel
  dsimp only
  by_cases h1 : s.mask &&& 16 ≠ 0 ∧ (s.mask &&& 4 ≠ 0 ∨ 8 ≤ s.current_scanline_cycle - 1)
  · rw [if_pos h1]
    by_cases h2 : s.winning_sprite_index < 8
    · rw [if_pos h2]
      by_cases h3 : s.sprite_zero_on_scanline = true ∧ s.winning_sprite_index = 0 ∧
          s.bg_palette_index_eff ≠ 0
      · rw [if_pos h3]
        by_cases h4 : s.bg_palette_index_eff = 0 ∨
            ¬(s.secondary_oam s.winning_sprite_index).bg_priority = true
        · rw [if_pos h4, plot_pixel_cycle, read_byte_state_cycle, status_upd_cycle,
              read_byte_state_cycle]
        · rw [if_neg h4, plot_pixel_cycle, status_upd_cycle, read_byte_state_cycle]
      · rw [if_neg h3]
        by_cases h4 : s.bg_palette_index_eff = 0 ∨
            ¬(s.secondary_oam s.winning_sprite_index).bg_priority = true
        · rw [if_pos h4, plot_pixel_cycle, read_byte_state_cycle, read_byte_state_cycle]
        · rw [if_neg h4, plot_pixel_cycle, read_byte_state_cycle]
    · rw [if_neg h2, plot_pixel_cycle, read_byte_state_cycle]
  · rw [if_neg h1, plot_pixel_cycle, read_byte_state_cycle]

/-- The exact gate of the sprite-zero-hit assignment inside draw_pixel:
the sprite pass must be enabled at this x (sprite rendering on, and either
the left-8-pixel sprite bit set or x at least 8), some sprite must win,
the winner must be sprite 0 with sprite_zero_on_scanline set, and the
clipped background palette index must be non-zero.  There is no x = 255
exclusion in the code. -/
def PpuState.sprite_zero_hit_cond (s : PpuState) : Prop :=
  (s.mask &&& 16 ≠ 0 ∧ (s.mask &&& 4 ≠ 0 ∨ 8 ≤ s.current_scanline_cycle - 1)) ∧
  s.winning_sprite_index < 8 ∧
  (s.sprite_zero_on_scanline = true ∧ s.winning_sprite_index = 0 ∧ s.bg_palette_index_eff ≠ 0)

instance (s : PpuState) : Decidable s.sprite_zero_hit_cond := by
  unfold PpuState.sprite_zero_hit_cond
  infer_instance

/-- The status register after draw_pixel: the sprite-zero-hit bit is OR-ed
in exactly under sprite_zero_hit_cond; nothing else in status changes. -/
theorem draw_pixel_status_eq (s : PpuState) (m : Mapper) :
    (s.draw_pixel m).status =
      if s.sprite_zero_hit_cond then s.status ||| 0x40 else s.status := by
  unfold PpuState.draw_pixel
  dsimp only
  by_cases h1 : s.mask &&& 16 ≠ 0 ∧ (s.mask &&& 4 ≠ 0 ∨ 8 ≤ s.current_scanline_cycle - 1)
  · rw [if_pos h1]
    by_cases h2 : s.winning_sprite_index < 8
    · rw [if_pos h2]
      by_cases h3 : s.sprite_zero_on_scanline = true ∧ s.winning_sprite_index = 0 ∧
          s.bg_palette_index_eff ≠ 0
      · rw [if_pos h3, if_pos (show s.sprite_zero_hit_cond from ⟨h1, h2, h3⟩)]
        by_cases h4 : s.bg_palette_index_eff = 0 ∨
            ¬(s.secondary_oam s.winning_sprite_index).bg_priority = true
        · rw [if_pos h4, plot_pixel_status, read_byte_state_status, status_upd_status,
              read_byte_state_status]
        · rw [if_neg h4, plot_pixel_status, status_upd_status, read_byte_state_status]
      · rw [if_neg h3, if_neg (show ¬s.sprite_zero_hit_cond from fun hc => h3 hc.2.2)]
        by_cases h4 : s.bg_palette_index_eff = 0 ∨
            ¬(s.secondary_oam s.winning_sprite_index).bg_priority = true
        · rw [if_pos h4, plot_pixel_status, read_byte_state_status, read_byte_state_status]
        · rw [if_neg h4, plot_pixel_status, read_byte_state_status]
    · rw [if_neg h2, if_neg (show ¬s.sprite_zero_hit_cond from fun hc => h2 hc.2.1),
          plot_pixel_status, read_byte_state_status]
  · rw [if_neg h1, if_neg (show ¬s.sprite_zero_hit_cond from fun hc => h1 hc.1),
        plot_pixel_status, read_byte_state_status]

/-- With the left-8-pixel background clip active at x below 8, the clipped
background palette index is forced to zero. -/
theorem bg_palette_index_eff_zero (s : PpuState) (hb : s.mask &&& 2 = 0)
    (hpx : s.current_scanline_cycle - 1 < 8) : s.bg_palette_index_eff = 0 := by
  unfold PpuState.bg_palette_index_eff
  rw [if_pos (Or.inr ⟨hb, hpx⟩)]

/-- The coarse-X increment as a pure function of the v register. -/
def coarse_x_next (v : Nat) : Nat :=
  (PpuState.increment_coarse_x { ppu0 with current_vram_address := v }).current_vram_address

/-- increment_coarse_x only reads and writes current_vram_address. -/
theorem increment_coarse_x_v (s : PpuState) :
    (s.increment_coarse_x).current_vram_address = coarse_x_next s.current_vram_address := by
  simp only [coarse_x_next, PpuState.increment_coarse_x,
    apply_ite PpuState.current_vram_address]

/-- increment_coarse_x changes only the v register. -/
theorem increment_coarse_x_cycle (s : PpuState) :
    (s.increment_coarse_x).current_scanline_cycle = s.current_scanline_cycle := by
  simp only [PpuState.increment_coarse_x, apply_ite PpuState.current_scanline_cycle]
  split <;> rfl

/-- The coarse-Y increment as a pure function of the v register. -/
def coarse_y_next (v : Nat) : Nat :=
  (PpuState.increment_coarse_y { ppu0 with current_vram_address := v }).current_vram_address

/-- increment_coarse_y only reads and writes current_vram_address. -/
theorem increment_coarse_y_v (s : PpuState) :
    (s.increment_coarse_y).current_vram_address = coarse_y_next s.current_vram_address := by
  simp only [coarse_y_next, PpuState.increment_coarse_y,
    apply_ite PpuState.current_vram_address]

/-- The fine-Y increment (with its coarse-Y carry) as a pure function of
the v register. -/
def fine_y_next (v : Nat) : Nat :=
  (PpuState.increment_fine_y { ppu0 with current_vram_address := v }).current_vram_address

/-- increment_fine_y only reads and writes current_vram_address. -/
theorem increment_fine_y_v (s : PpuState) :
    (s.increment_fine_y).current_vram_address = fine_y_next s.current_vram_address := by
  simp only [fine_y_next, PpuState.increment_fine_y, PpuState.fine_y,
    increment_coarse_y_v, apply_ite PpuState.current_vram_address]

/-- reload_shift_registers changes only the shifters and the palette latch. -/
theorem reload_shift_registers_v (s : PpuState) :
    (s.reload_shift_registers).current_vram_address = s.current_vram_address := rfl

/-- reload_shift_registers changes only the shifters and the palette latch. -/
theorem reload_shift_registers_cycle (s : PpuState) :
    (s.reload_shift_registers).current_scanline_cycle = s.current_scanline_cycle := rfl

/-- shift_bg_registers changes only the shifters. -/
theorem shift_bg_registers_v (s : PpuState) :
    (s.shift_bg_registers).current_vram_address = s.current_vram_address := rfl

/-- shift_bg_registers changes only the shifters. -/
theorem shift_bg_registers_cycle (s : PpuState) :
    (s.shift_bg_registers).current_scanline_cycle = s.current_scanline_cycle := rfl

/-- shift_sprites changes only secondary OAM. -/
theorem shift_sprites_v (s : PpuState) :
    (s.shift_sprites).current_vram_address = s.current_vram_address := rfl

/-- shift_sprites changes only secondary OAM. -/
theorem shift_sprites_cycle (s : PpuState) :
    (s.shift_sprites).current_scanline_cycle = s.current_scanline_cycle := rfl

/-- The sub-cycle-7 arm of fetch_bg_tile is the shift-register reload
followed by the coarse-X increment. -/
theorem fetch_bg_tile_seven (s : PpuState) (m : Mapper) :
    s.fetch_bg_tile m 7 = s.reload_shift_registers.increment_coarse_x := by
  simp only [PpuState.fetch_bg_tile]
  norm_num

/-- At dot 256 of a visible scanline with rendering enabled, the v
register steps by the coarse-X increment of the dot-256 fetch slot
followed by the fine-Y increment. -/
theorem render_scanline_dot256_v (s : PpuState) (m : Mapper)
    (hr : s.rendering_enabled) (hc : s.current_scanline_cycle = 256) :
    (s.render_scanline m).current_vram_address =
      fine_y_next (coarse_x_next s.current_vram_address) := by
  unfold PpuState.render_scanline
  rw [if_pos hr]
  rw [if_neg (show ¬s.current_scanline_cycle = 0 by omega)]
  rw [if_pos (show 1 ≤ s.current_scanline_cycle ∧ s.current_scanline_cycle ≤ 256 by omega)]
  dsimp only
  rw [shift_sprites_cycle, shift_bg_registers_cycle, draw_pixel_cycle, hc]
  rw [show (256 - 1) % 8 = 7 from rfl]
  rw [fetch_bg_tile_seven]
  rw [increment_coarse_x_cycle, reload_shift_registers_cycle, shift_sprites_cycle,
      shift_bg_registers_cycle, draw_pixel_cycle, hc]
  rw [if_pos rfl]
  rw [increment_fine_y_v, increment_coarse_x_v, reload_shift_registers_v, shift_sprites_v,
      shift_bg_registers_v, draw_pixel_v]

/-- The C5 counterexample state: rendering enabled, dot 256, fine-Y 7 and
coarse-Y 30 in v (v = 0x73C0). -/
def ppu_c5 : PpuState :=
  { ppu0 with
      mask := 0x18
      current_scanline_cycle := 256
      current_scanline := 100
      current_vram_address := 0x73C0 }

/-- C5 counterexample: at dot 256 with fine-Y 7 and coarse-Y 30, the
dot-256 v update (coarse-X increment plus fine-Y increment) leaves
coarse-Y at 31, not 0: only the value 30 (reached from 29) wraps to 0, so
the claim that coarse-Y wraps to 0 from 30 fails. -/
theorem C5_counterexample :
    (ppu_c5.current_vram_address &&& 0x7000) >>> 12 = 7 ∧
    (ppu_c5.current_vram_address &&& 0x3E0) >>> 5 = 30 ∧
    ((ppu_c5.render_scanline mapper_zero).current_vram_address &&& 0x3E0) >>> 5 = 31 ∧
    ¬(((ppu_c5.render_scanline mapper_zero).current_vram_address &&& 0x3E0) >>> 5 = 0) := by
  decide

/-- C5 amended: at dot 256 of a rendering scanline with rendering enabled
the v register becomes fine_y_next (coarse_x_next v); and the fine-Y
increment carries into coarse-Y as follows: below fine-Y 7 only fine-Y
steps; at fine-Y 7 it wraps to 0 and coarse-Y 29 wraps to 0 flipping the
vertical nametable bit, coarse-Y 30 increments to 31 without a flip,
coarse-Y 31 wraps to 0 without a flip, and any other coarse-Y simply
increments. -/
theorem C5_amended_thm :
    (∀ (s : PpuState) (m : Mapper), s.rendering_enabled → s.current_scanline_cycle = 256 →
      (s.render_scanline m).current_vram_address =
        fine_y_next (coarse_x_next s.current_vram_address)) ∧
    (∀ (s : PpuState) (f n cy cx : Nat), f < 8 → n < 4 → cy < 32 → cx < 32 →
      s.current_vram_address = f * 4096 + n * 1024 + cy * 32 + cx →
      (s.increment_fine_y).current_vram_address =
        if f < 7 then (f + 1) * 4096 + n * 1024 + cy * 32 + cx
        else if cy = 29 then (n ^^^ 2) * 1024 + cx
        else if cy = 30 then n * 1024 + 31 * 32 + cx
        else if cy = 31 then n * 1024 + cx
        else n * 1024 + (cy + 1) * 32 + cx) := by
  constructor
  · intro s m hr hc
    exact render_scanline_dot256_v s m hr hc
  · intro s f n cy cx hf hn hcy hcx hv
    rw [increment_fine_y_v, hv]
    clear hv
    revert cx
    revert cy
    revert n
    revert f
    decide

/-- C5 witness: the amended dot-256 law and the fine-Y carry law at
concrete inputs (fine-Y 7, coarse-Y 29: wrap with vertical-nametable
flip). -/
theorem C5_amended_thm_witness :
    (ppu_c5.render_scanline mapper_zero).current_vram_address =
      fine_y_next (coarse_x_next ppu_c5.current_vram_address) ∧
    (({ ppu0 with current_vram_address := 7 * 4096 + 0 * 1024 + 29 * 32 + 3 } :
        PpuState).increment_fine_y).current_vram_address =
      if (7 : Nat) < 7 then (7 + 1) * 4096 + 0 * 1024 + 29 * 32 + 3
      else if (29 : Nat) = 29 then (0 ^^^ 2) * 1024 + 3
      else if (29 : Nat) = 30 then 0 * 1024 + 31 * 32 + 3
      else if (29 : Nat) = 31 then 0 * 1024 + 3
      else 0 * 1024 + (29 + 1) * 32 + 3 :=
  ⟨C5_amended_thm.1 ppu_c5 mapper_zero (by decide) rfl,
   C5_amended_thm.2 _ 7 0 29 3 (by decide) (by decide) (by decide) (by decide) rfl⟩

/-- The C6 counterexample state: rendering fully enabled with both
left-show bits set, x = 255 (dot 256), sprite 0 active with an opaque
pixel, opaque background pixel, sprite-zero-hit bit clear. -/
def ppu_c6 : PpuState :=
  { ppu0 with
      mask := 0b00011110
      current_scanline_cycle := 256
      current_scanline := 100
      tile_shift_low := 0x8000
      sprite_zero_on_scanline := true
      secondary_oam_index := 1
      secondary_oam := fun _ =>
        { SpriteLatch.new with bitmap_low := 0x80, x_counter := 0, active := true } }

/-- C6 counterexample: the sprite-zero hit fires at x = 255: draw_pixel
has no x = 255 exclusion, contradicting the claim that the hit never
fires there. -/
theorem C6_counterexample :
    ppu_c6.current_scanline_cycle - 1 = 255 ∧
    ppu_c6.status &&& 0x40 = 0 ∧
    (ppu_c6.draw_pixel mapper_zero).status &&& 0x40 = 0x40 := by
  decide

/-- C6 amended: the status register after draw_pixel is characterized by
sprite_zero_hit_cond: the hit bit is OR-ed in exactly when the sprite pass
is enabled at this x (sprite rendering on and left-clip passing), the
winning sprite index is 0, sprite_zero_on_scanline holds, and the clipped
background palette index is non-zero.  There is no x = 255 exclusion.  In
particular, at x below 8 with either plane left-clipped, status never
changes. -/
theorem C6_amended_thm :
    (∀ (s : PpuState) (m : Mapper),
      (s.draw_pixel m).status =
        if s.sprite_zero_hit_cond then s.status ||| 0x40 else s.status) ∧
    (∀ (s : PpuState) (m : Mapper), s.current_scanline_cycle - 1 < 8 →
      (s.mask &&& 4 = 0 ∨ s.mask &&& 2 = 0) →
      (s.draw_pixel m).status = s.status) := by
  constructor
  · intro s m
    exact draw_pixel_status_eq s m
  · intro s m hpx hclip
    rw [draw_pixel_status_eq]
    rcases hclip with hclip | hclip
    · refine if_neg (fun hc => ?_)
      rcases hc.1.2 with h | h
      · exact h hclip
      · omega
    · exact if_neg (fun hc => hc.2.2.2.2 (bg_palette_index_eff_zero s hclip hpx))

/-- A left-clipped state at x = 0 for the C6 witness. -/
def ppu_c6w : PpuState := { ppu0 with mask := 0b00011000, current_scanline_cycle := 1 }

/-- C6 witness: the amended characterization applied at concrete inputs
(the x = 255 state, and the left-clipped x = 0 state where status is
untouched). -/
theorem C6_amended_thm_witness :
    ((ppu_c6.draw_pixel mapper_zero).status =
      if ppu_c6.sprite_zero_hit_cond then ppu_c6.status ||| 0x40 else ppu_c6.status) ∧
    (ppu_c6w.draw_pixel mapper_zero).status = ppu_c6w.status :=
  ⟨C6_amended_thm.1 ppu_c6 mapper_zero,
   C6_amended_thm.2 ppu_c6w mapper_zero (by decide) (Or.inl (by decide))⟩

/- ============ save/load round-trip lemmas ============ -/

/-- Popping the byte just pushed returns it and the previous stream. -/
theorem pop_u8_concat (xs : List Nat) (a : Nat) : pop_u8 (xs ++ [a]) = (xs, a) := by
  simp [pop_u8, List.dropLast_concat, List.getLast?_concat]

/-- Popping the bool byte just pushed returns it and the previous stream. -/
theorem pop_bool_concat (xs : List Nat) (b : Bool) : pop_bool (xs ++ [b2u b]) = (xs, b) := by
  cases b <;> simp [pop_bool, pop_u8_concat, b2u]

/-- Splitting an opaque n-byte suffix off the stream returns it exactly. -/
theorem split_off_blob_concat (n : Nat) (xs l : List Nat) (h : l.length = n) :
    split_off_blob n (xs ++ l) = (xs, l) := by
  unfold split_off_blob
  have hlen : (xs ++ l).length - n = xs.length := by simp [List.length_append, h]
  rw [hlen, List.take_left, List.drop_left]

/-- Splitting the two little-endian bytes of a u16 recovers it. -/
theorem split_off_le2_concat (xs : List Nat) (v : Nat) (h : v < 65536) :
    split_off_le 2 (xs ++ le2 v) = (xs, v) := by
  unfold split_off_le le2
  have hlen : (xs ++ [v % 256, v / 256 % 256]).length - 2 = xs.length := by simp
  rw [hlen, List.take_left, List.drop_left]
  unfold from_le_bytes
  simp only [List.foldr_cons, List.foldr_nil]
  congr 1
  omega

/-- Splitting the four little-endian bytes of a u32 recovers it. -/
theorem split_off_le4_concat (xs : List Nat) (v : Nat) (h : v < 4294967296) :
    split_off_le 4 (xs ++ le4 v) = (xs, v) := by
  unfold split_off_le le4
  have hlen :
      (xs ++ [v % 256, v / 256 % 256, v / 65536 % 256, v / 16777216 % 256]).length - 4 =
        xs.length := by simp
  rw [hlen, List.take_left, List.drop_left]
  unfold from_le_bytes
  simp only [List.foldr_cons, List.foldr_nil]
  congr 1
  omega

/-- Splitting the eight little-endian bytes of a u64 recovers it. -/
theorem split_off_le8_concat (xs : List Nat) (v : Nat) (h : v < 18446744073709551616) :
    split_off_le 8 (xs ++ le8 v) = (xs, v) := by
  unfold split_off_le le8
  have hlen :
      (xs ++ [v % 256, v / 256 % 256, v / 65536 % 256, v / 16777216 % 256,
        v / 4294967296 % 256, v / 1099511627776 % 256, v / 281474976710656 % 256,
        v / 72057594037927936 % 256]).length - 8 = xs.length := by simp
  rw [hlen, List.take_left, List.drop_left]
  unfold from_le_bytes
  simp only [List.foldr_cons, List.foldr_nil]
  congr 1
  omega

/-- The envelope serialization round-trips (spec-modelled fields). -/
theorem volume_envelope_roundtrip (e q : VolumeEnvelopeState) (buf : List Nat) :
    q.load_state (e.save_state buf) = (e, buf) := by
  simp only [VolumeEnvelopeState.save_state, VolumeEnvelopeState.load_state, save_u8,
    save_bool, pop_u8_concat, pop_bool_concat]

/-- The length-counter serialization round-trips. -/
theorem length_counter_roundtrip (lc q : LengthCounterState) (buf : List Nat) :
    q.load_state (lc.save_state buf) = (lc, buf) := by
  simp only [LengthCounterState.save_state, LengthCounterState.load_state, save_u8,
    save_bool, pop_u8_concat, pop_bool_concat]

/-- The pulse-channel serialization round-trips: load_state restores every
saved field (all fields except the debug last_edge flag), leaving the rest
of the stream intact. -/
theorem pulse_save_load_roundtrip (p q : PulseChannelState) (buf : List Nat)
    (h1 : p.period_initial < 65536) (h2 : p.period_current < 65536)
    (h3 : p.cpu_clock_rate < 18446744073709551616) :
    q.load_state (p.save_state buf) = ({ p with last_edge := q.last_edge }, buf) := by
  simp only [PulseChannelState.save_state, PulseChannelState.load_state,
    split_off_le8_concat _ _ h3, split_off_le2_concat _ _ h2, split_off_le2_concat _ _ h1,
    pop_u8_concat, pop_bool_concat, length_counter_roundtrip, volume_envelope_roundtrip]

/-- The console-level serialization round-trips: load_state consumes the
stream in exact reverse order of save_state, restoring every field, given
that each opaque component record of the target has the same byte length
as in the source state (the format identity the spec requires). -/
theorem nes_save_load_roundtrip (x y : NesState) (buf : List Nat)
    (ha : x.apu.length = y.apu.length) (hc : x.cpu.length = y.cpu.length)
    (hm : x.memory.length = y.memory.length) (hp : x.ppu.length = y.ppu.length)
    (hr : x.registers.length = y.registers.length) (hmap : x.mapper.length = y.mapper.length)
    (hclk : x.master_clock < 18446744073709551616) (hlf : x.last_frame < 4294967296) :
    y.load_state (buf ++ x.save_state) = (x, buf) := by
  simp only [NesState.save_state, NesState.load_state, save_u8, save_bool, List.nil_append,
    ← List.append_assoc, split_off_le4_concat _ _ hlf, split_off_le8_concat _ _ hclk,
    pop_u8_concat, pop_bool_concat,
    split_off_blob_concat _ _ _ hmap, split_off_blob_concat _ _ _ hr,
    split_off_blob_concat _ _ _ hp, split_off_blob_concat _ _ _ hm,
    split_off_blob_concat _ _ _ hc, split_off_blob_concat _ _ _ ha]

/-- C10: load_state is a left inverse of save_state: for the pulse channel
(real code of pulse.rs/length_counter.rs, reading every saved field back
in exact reverse order) and for the console field order of nes.rs, whose
components are spec-modelled opaque byte records of matching length. -/
theorem C10_save_load_roundtrip_thm :
    (∀ (p q : PulseChannelState) (buf : List Nat),
      p.period_initial < 65536 → p.period_current < 65536 →
      p.cpu_clock_rate < 18446744073709551616 →
      q.load_state (p.save_state buf) = ({ p with last_edge := q.last_edge }, buf)) ∧
    (∀ (x y : NesState) (buf : List Nat),
      x.apu.length = y.apu.length → x.cpu.length = y.cpu.length →
      x.memory.length = y.memory.length → x.ppu.length = y.ppu.length →
      x.registers.length = y.registers.length → x.mapper.length = y.mapper.length →
      x.master_clock < 18446744073709551616 → x.last_frame < 4294967296 →
      y.load_state (buf ++ x.save_state) = (x, buf)) := by
  constructor
  · intro p q buf h1 h2 h3
    exact pulse_save_load_roundtrip p q buf h1 h2 h3
  · intro x y buf ha hc hm hp hr hmap hclk hlf
    exact nes_save_load_roundtrip x y buf ha hc hm hp hr hmap hclk hlf

/-- A concrete console state for the C10 witness. -/
def nes_c10 : NesState :=
  { apu := [1, 2], cpu := [3], memory := [4, 5, 6], ppu := [7], registers := [8, 9],
    master_clock := 123456789, p1_input := 1, p1_data := 2, p2_input := 3, p2_data := 4,
    input_latch := true, mapper := [10, 11, 12], last_frame := 42 }

/-- A differently-populated console state of matching component lengths. -/
def nes_c10b : NesState :=
  { apu := [0, 0], cpu := [0], memory := [0, 0, 0], ppu := [0], registers := [0, 0],
    master_clock := 0, p1_input := 0, p1_data := 0, p2_input := 0, p2_data := 0,
    input_latch := false, mapper := [0, 0, 0], last_frame := 0 }

/-- C10 witness: the round-trip laws applied at concrete states. -/
theorem C10_save_load_roundtrip_thm_witness :
    (PulseChannelState.mk_new false).load_state
        ((PulseChannelState.mk_new true).save_state []) =
      ({ PulseChannelState.mk_new true with
          last_edge := (PulseChannelState.mk_new false).last_edge }, []) ∧
    nes_c10b.load_state ([] ++ nes_c10.save_state) = (nes_c10, []) :=
  ⟨C10_save_load_roundtrip_thm.1 (PulseChannelState.mk_new true)
      (PulseChannelState.mk_new false) [] (by decide) (by decide) (by decide),
   C10_save_load_roundtrip_thm.2 nes_c10 nes_c10b [] rfl rfl rfl rfl rfl rfl
      (by decide) (by decide)⟩
